import Mathlib

/-!
# AprendoJugando-Back: registration / authentication backend

Shallow embedding of `src/server.js` (an Express application over Sequelize,
bcryptjs, jsonwebtoken and nodemailer) and the properties of its four routes.

The relational store is an explicit value (`Store`) threaded through each
handler.  The external collaborators (password hashing, token signing and
verification, mail transport, the `isEmail` validator) are fields of
`Collaborators`, so every theorem holds for all of their behaviours.

Conventions of the embedding:
* request bodies are typed: the members of `parentData` and `childData` are
  the attributes of the two models with values of the column types, and a key
  that is absent is `none`; keys that are not attributes are dropped by the
  models when the instance is built;
* the store is reachable and in strict mode: an INSERT fails on a validation
  error, a duplicate key, a value the column cannot hold or a dangling
  foreign key, and on nothing else; a query or an UPDATE by primary key does
  not fail;
* string comparison in the store is exact equality;
* the `createdAt` / `updatedAt` columns Sequelize maintains on its own are not
  part of the data model;
* `AUTO_INCREMENT` ids are one more than the largest id present (rows are
  never deleted by this program).
-/

namespace AprendoJugando

/-! ## Values and objects -/

/-- A JSON scalar as it occurs in the objects handed to the models. -/
inductive Value where
  | str (s : String)
  | int (n : Int)
  | bool (b : Bool)
deriving DecidableEq, Repr

/-- A JavaScript object literal: own keys with their values. -/
abbrev Obj := List (String × Value)

/-- Property read `o[k]`; `none` is `undefined`. -/
def Obj.get (o : Obj) (k : String) : Option Value :=
  List.lookup k o

/-- The literal `{...o, k: v}`. -/
def Obj.spread (o : Obj) (k : String) (v : Value) : Obj :=
  o.filter (fun kv => kv.1 != k) ++ [(k, v)]

/-- Value of a STRING attribute: what is validated (`String(value)`) and stored. -/
def Obj.text (o : Obj) (k : String) : Option String :=
  match o.get k with
  | some (.str s) => some s
  | some (.int n) => some (toString n)
  | some (.bool b) => some (toString b)
  | none => none

/-! ## Data model (server.js 25-161) -/

/-- Row of the `RegistrationCode` model (server.js 25-37). -/
structure RegistrationCode where
  id : Nat
  code : String
  isUsed : Bool
deriving DecidableEq, Repr

/-- Row of the `Parent` model (server.js 39-108); `password` holds what was
handed to `Parent.create`. -/
structure Parent where
  id : Nat
  firstName : String
  lastName : String
  documentNumber : String
  phoneNumber : String
  email : String
  password : String
  isEmailVerified : Bool
deriving DecidableEq, Repr

/-- Row of the `Child` model (server.js 110-158) with the nullable foreign-key
column that the association of lines 160-161 adds. -/
structure Child where
  id : Nat
  firstName : String
  lastName : String
  age : Int
  documentNumber : String
  ParentId : Option Nat
deriving DecidableEq, Repr

/-- The relational store: the three tables. -/
structure Store where
  codes : List RegistrationCode
  parents : List Parent
  children : List Child
deriving DecidableEq, Repr

/-- The schema constraints a store state satisfies: primary keys and the
columns declared `unique` (server.js 29, 61, 82, 149) hold no duplicates. -/
def Store.WF (s : Store) : Prop :=
  (s.codes.map (fun r => r.id)).Nodup ∧ (s.codes.map (fun r => r.code)).Nodup ∧
  (s.parents.map (fun p => p.id)).Nodup ∧
  (s.parents.map (fun p => p.documentNumber)).Nodup ∧
  (s.parents.map (fun p => p.email)).Nodup ∧
  (s.children.map (fun k => k.id)).Nodup ∧
  (s.children.map (fun k => k.documentNumber)).Nodup

instance (s : Store) : Decidable s.WF := by
  unfold Store.WF; infer_instance

/-- Next `AUTO_INCREMENT` value for a table whose ids are `ids`. -/
def nextId (ids : List Nat) : Nat :=
  ids.foldr max 0 + 1

/-- Largest value an INTEGER column holds. -/
def maxInteger : Int := 2147483647

/-- Length of a STRING column, `VARCHAR(255)`. -/
def maxString : Nat := 255

/-- Whether one of the values is too long for a STRING column. -/
def tooLong (values : List String) : Bool :=
  values.any (fun v => decide (maxString < v.length))

/-! ## Validation (Sequelize instance validator) -/

/-- One item of `error.errors`: the attribute (`path`) and the message. -/
structure FieldError where
  field : String
  message : String
deriving DecidableEq, Repr

/-- Errors thrown by a `create`: the two Sequelize errors the register handler
tells apart by name, and any other error of the store (a value too long or out
of range for its column, a foreign key that references no row). -/
inductive DbError where
  | validation (errors : List FieldError)
  | uniqueConstraint (errors : List FieldError)
  | other
deriving DecidableEq, Repr

/-- Primary key an INSERT gives the row built from `o`, over a table whose ids
are `ids`: without `id`, or with 0, AUTO_INCREMENT assigns the next value; a
positive value within the column range is taken as it is unless a row has it
already; any other value is refused by the store. -/
def primaryKey (o : Obj) (ids : List Nat) : Except DbError Nat :=
  match o.get "id" with
  | none => .ok (nextId ids)
  | some (.int n) =>
    if n = 0 then .ok (nextId ids)
    else if 1 ≤ n ∧ n ≤ maxInteger then
      if n.toNat ∈ ids then .error (.uniqueConstraint [⟨"PRIMARY", "PRIMARY must be unique"⟩])
      else .ok n.toNat
    else .error .other
  | some _ => .error .other

/-- Characters matched by the regular-expression class `\s`. -/
def jsSpace (c : Char) : Bool :=
  let n := c.toNat
  n == 9 || n == 10 || n == 11 || n == 12 || n == 13 || n == 32 || n == 160 ||
  n == 5760 || (8192 ≤ n && n ≤ 8202) || n == 8232 || n == 8233 || n == 8239 ||
  n == 8287 || n == 12288 || n == 65279

/-- Validator `notEmpty`: the string is not made of white space only. -/
def notEmpty (s : String) : Bool :=
  !(s.toList.all jsSpace)

/-- Validator `len: [lo, hi]`. -/
def len (lo hi : Nat) (s : String) : Bool :=
  decide (lo ≤ s.length) && decide (s.length ≤ hi)

/-- Validator `isInt` on a string: an optional sign followed by digits. -/
def isInt (s : String) : Bool :=
  match s.toList with
  | [] => false
  | c :: cs =>
    let ds := if c == '-' || c == '+' then cs else c :: cs
    !ds.isEmpty && ds.all Char.isDigit

/-- Schema check of `allowNull: false`. -/
def notNull (model attr : String) (present : Bool) : List FieldError :=
  if present then [] else [⟨attr, model ++ "." ++ attr ++ " cannot be null"⟩]

/-- One configured validator with its `msg`, run on a value that is not null. -/
def check (attr : String) (v : Option String) (ok : String → Bool) (msg : String) :
    List FieldError :=
  match v with
  | some x => if ok x then [] else [⟨attr, msg⟩]
  | none => []

/-! ## External collaborators -/

/-- Payload returned by `jwt.verify`; only `email` is read. -/
structure Decoded where
  email : Option String
deriving DecidableEq, Repr

/-- Argument of `transporter.sendMail` (the sender is process configuration);
`recipient` is the key `to`. -/
structure Mail where
  recipient : String
  subject : String
  html : String
deriving DecidableEq, Repr

/-- The library calls whose results the handlers depend on. `verify` is `none`
and `sendMail` is `false` when the call throws. -/
structure Collaborators where
  hash : String → String
  compare : String → String → Bool
  sign : Obj → String → String
  verify : String → Option Decoded
  sendMail : Mail → Bool
  isEmail : String → Bool

/-- Record of a collaborator call made while handling a request. -/
inductive Call where
  | hash (password : String)
  | compare (password stored : String)
  | sign (payload : Obj) (expiresIn : String)
  | verify (token : String)
  | sendMail (mail : Mail)
deriving DecidableEq, Repr

/-! ## Store operations -/

/-- Query `RegistrationCode.findOne({ where: { code, isUsed: false } })`. -/
def RegistrationCode.findOne (s : Store) (code : String) : Option RegistrationCode :=
  s.codes.find? (fun r => r.code == code && r.isUsed == false)

/-- Instance method `registrationCode.update({ isUsed: true })`: an UPDATE by primary key. -/
def RegistrationCode.update (s : Store) (row : RegistrationCode) : Store :=
  { s with codes := s.codes.map (fun r => if r.id = row.id then { r with isUsed := true } else r) }

/-- Query `Parent.findOne({ where: { documentNumber } })`. -/
def Parent.findOneByDocumentNumber (s : Store) (documentNumber : String) : Option Parent :=
  s.parents.find? (fun p => p.documentNumber == documentNumber)

/-- Query `Parent.findOne({ where: { email } })`. -/
def Parent.findOneByEmail (s : Store) (email : String) : Option Parent :=
  s.parents.find? (fun p => p.email == email)

/-- Instance method `parent.update({ isEmailVerified: true })`: an UPDATE by primary key. -/
def Parent.update (s : Store) (row : Parent) : Store :=
  { s with parents :=
      s.parents.map (fun p => if p.id = row.id then { p with isEmailVerified := true } else p) }

/-- Errors of validating the attributes of a `Parent` (server.js 39-108): the
`allowNull: false` violations first, then the failed validators. -/
def Parent.validate (c : Collaborators) (o : Obj) : List FieldError :=
  notNull "Parent" "firstName" (o.text "firstName").isSome ++
  notNull "Parent" "lastName" (o.text "lastName").isSome ++
  notNull "Parent" "documentNumber" (o.text "documentNumber").isSome ++
  notNull "Parent" "phoneNumber" (o.text "phoneNumber").isSome ++
  notNull "Parent" "email" (o.text "email").isSome ++
  notNull "Parent" "password" (o.text "password").isSome ++
  check "firstName" (o.text "firstName") notEmpty "El nombre no puede estar vacío" ++
  check "lastName" (o.text "lastName") notEmpty "El apellido no puede estar vacío" ++
  check "documentNumber" (o.text "documentNumber") notEmpty
    "El número de documento no puede estar vacío" ++
  check "phoneNumber" (o.text "phoneNumber") notEmpty
    "El número de teléfono no puede estar vacío" ++
  check "email" (o.text "email") c.isEmail
    "Por favor, introduce un correo electrónico válido" ++
  check "email" (o.text "email") notEmpty "El correo electrónico no puede estar vacío" ++
  check "password" (o.text "password") (len 6 100)
    "La contraseña debe tener al menos 6 caracteres"

/-- Value of the BOOLEAN attribute `isEmailVerified` of the instance built from
`o`: the `defaultValue` `false` without the key; `none` when the value is not a
boolean and the store refuses it. -/
def Parent.verifiedOf (o : Obj) : Option Bool :=
  match o.get "isEmailVerified" with
  | none => some false
  | some (.bool b) => some b
  | some _ => none

/-- Call `Parent.create(o)`: validate, then INSERT. The store refuses a value
its column cannot hold, then a duplicate of the primary key or of the unique
indexes on `documentNumber` and `email`. -/
def Parent.create (c : Collaborators) (s : Store) (o : Obj) : Except DbError (Parent × Store) :=
  match Parent.validate c o with
  | e :: es => .error (.validation (e :: es))
  | [] =>
    match o.text "firstName", o.text "lastName", o.text "documentNumber",
        o.text "phoneNumber", o.text "email", o.text "password" with
    | some firstName, some lastName, some documentNumber, some phoneNumber, some email,
        some password =>
      if tooLong [firstName, lastName, documentNumber, phoneNumber, email, password] then
        .error .other
      else
        match Parent.verifiedOf o, primaryKey o (s.parents.map (fun p => p.id)) with
        | none, _ => .error .other
        | some _, .error e => .error e
        | some isEmailVerified, .ok id =>
          if s.parents.any (fun p => p.documentNumber == documentNumber) then
            .error (.uniqueConstraint
              [⟨"documentNumber", "Este número de documento ya está registrado"⟩])
          else if s.parents.any (fun p => p.email == email) then
            .error (.uniqueConstraint [⟨"email", "Este correo electrónico ya está registrado"⟩])
          else
            let parent : Parent :=
              { id := id, firstName := firstName, lastName := lastName,
                documentNumber := documentNumber, phoneNumber := phoneNumber, email := email,
                password := password, isEmailVerified := isEmailVerified }
            .ok (parent, { s with parents := s.parents ++ [parent] })
    | _, _, _, _, _, _ => .error (.validation [])

/-- Sequelize `Utils.camelize`: each run of `-`, `_` or white space is dropped
and the character after it is upper-cased. -/
def camelizeChars (up : Bool) : List Char → List Char
  | [] => []
  | c :: cs =>
    if c == '-' || c == '_' || jsSpace c then camelizeChars true cs
    else (if up then c.toUpper else c) :: camelizeChars false cs

/-- Sequelize `Utils.camelize` on strings. -/
def camelize (s : String) : String :=
  String.mk (camelizeChars false s.toList)

/-- Name given to `sequelize.define` for the parent model (server.js 39). -/
def Parent.modelName : String := "Parent"

/-- Primary key attribute Sequelize adds to a model that declares none. -/
def Parent.primaryKeyAttribute : String := "id"

/-- Foreign-key attribute that `Parent.hasMany(Child)` and `Child.belongsTo(Parent)`
(server.js 160-161), called without options, define on `Child`: the camelized
join of the parent model name and its primary key. -/
def Child.foreignKey : String :=
  camelize (Parent.modelName ++ "_" ++ Parent.primaryKeyAttribute)

/-- Number denoted by a string that passes `isInt`. -/
def parseInt (s : String) : Int :=
  let digits := fun (ds : List Char) => ds.foldl (fun a c => 10 * a + (c.toNat - 48)) 0
  match s.toList with
  | '-' :: ds => - ((digits ds : Nat) : Int)
  | '+' :: ds => ((digits ds : Nat) : Int)
  | ds => ((digits ds : Nat) : Int)

/-- Errors of the validators `isInt`, `min: 0` and `max: 18` of the INTEGER
attribute `age` (server.js 129-145). -/
def Child.validateAge (o : Obj) : List FieldError :=
  match o.get "age" with
  | none => []
  | some (.int n) =>
    (if 0 ≤ n then [] else [⟨"age", "La edad no puede ser negativa"⟩]) ++
    (if n ≤ 18 then [] else [⟨"age", "La edad no puede ser mayor a 18 años"⟩])
  | some (.str t) =>
    if isInt t then
      (if 0 ≤ parseInt t then [] else [⟨"age", "La edad no puede ser negativa"⟩]) ++
      (if parseInt t ≤ 18 then [] else [⟨"age", "La edad no puede ser mayor a 18 años"⟩])
    else [⟨"age", "La edad debe ser un número entero"⟩]
  | some (.bool _) => [⟨"age", "La edad debe ser un número entero"⟩]

/-- Stored value of the INTEGER attribute `age`. -/
def Child.ageOf (o : Obj) : Option Int :=
  match o.get "age" with
  | none => none
  | some (.int n) => some n
  | some (.str t) => some (parseInt t)
  | some (.bool _) => none

/-- Errors of validating the attributes of a `Child` (server.js 110-158). -/
def Child.validate (o : Obj) : List FieldError :=
  notNull "Child" "firstName" (o.text "firstName").isSome ++
  notNull "Child" "lastName" (o.text "lastName").isSome ++
  notNull "Child" "age" (o.get "age").isSome ++
  notNull "Child" "documentNumber" (o.text "documentNumber").isSome ++
  check "firstName" (o.text "firstName") notEmpty "El nombre no puede estar vacío" ++
  check "lastName" (o.text "lastName") notEmpty "El apellido no puede estar vacío" ++
  Child.validateAge o ++
  check "documentNumber" (o.text "documentNumber") notEmpty
    "El número de documento no puede estar vacío"

/-- Value of the foreign-key attribute in the object given to `Child.create`;
keys that are not attributes of the model are ignored when the instance is built. -/
def Child.foreignKeyOf (o : Obj) : Option Nat :=
  match o.get Child.foreignKey with
  | some (.int n) => some n.toNat
  | _ => none

/-- The foreign-key constraint on an INSERT of the row built from `o`: the
foreign key is null or the id of a row of `Parent`. -/
def Child.foreignKeyHolds (s : Store) (o : Obj) : Bool :=
  match o.get Child.foreignKey with
  | none => true
  | some (.int n) => s.parents.any (fun p => (p.id : Int) == n)
  | some _ => false

/-- Call `Child.create(o)`: validate, then INSERT. The store refuses a value
its column cannot hold, then a duplicate of the primary key or of the unique
index on `documentNumber`, then a foreign key that references no Parent. -/
def Child.create (s : Store) (o : Obj) : Except DbError (Child × Store) :=
  match Child.validate o with
  | e :: es => .error (.validation (e :: es))
  | [] =>
    match o.text "firstName", o.text "lastName", Child.ageOf o, o.text "documentNumber" with
    | some firstName, some lastName, some age, some documentNumber =>
      if tooLong [firstName, lastName, documentNumber] then .error .other
      else
        match primaryKey o (s.children.map (fun k => k.id)) with
        | .error e => .error e
        | .ok id =>
          if s.children.any (fun k => k.documentNumber == documentNumber) then
            .error (.uniqueConstraint
              [⟨"documentNumber", "Este número de documento ya está registrado"⟩])
          else if !Child.foreignKeyHolds s o then .error .other
          else
            let child : Child :=
              { id := id, firstName := firstName, lastName := lastName, age := age,
                documentNumber := documentNumber, ParentId := Child.foreignKeyOf o }
            .ok (child, { s with children := s.children ++ [child] })
    | _, _, _, _ => .error (.validation [])

/-! ## Requests and responses -/

/-- The object `parentData` of the register body: the attributes of `Parent`
a caller can give. -/
structure ParentData where
  firstName : Option String
  lastName : Option String
  documentNumber : Option String
  phoneNumber : Option String
  email : Option String
  password : Option String
  id : Option Nat
  isEmailVerified : Option Bool
deriving DecidableEq, Repr

/-- The object `childData` of the register body: the attributes of `Child` a
caller can give, the foreign key of the association among them. -/
structure ChildData where
  firstName : Option String
  lastName : Option String
  age : Option Int
  documentNumber : Option String
  id : Option Nat
  ParentId : Option Nat
deriving DecidableEq, Repr

/-- Body of `POST /register`. -/
structure RegisterBody where
  parentData : Option ParentData
  childData : Option ChildData
  code : Option String
deriving DecidableEq, Repr

/-- Body of `POST /login`. -/
structure LoginBody where
  documentNumber : Option String
  password : Option String
deriving DecidableEq, Repr

/-- Own keys of an object built from optional members. -/
def members (kvs : List (String × Option Value)) : Obj :=
  kvs.filterMap (fun kv => kv.2.map (fun v => (kv.1, v)))

/-- The JavaScript object a `parentData` denotes. -/
def ParentData.toObj (d : ParentData) : Obj :=
  members [("firstName", d.firstName.map .str), ("lastName", d.lastName.map .str),
    ("documentNumber", d.documentNumber.map .str), ("phoneNumber", d.phoneNumber.map .str),
    ("email", d.email.map .str), ("password", d.password.map .str),
    ("id", d.id.map (fun n => .int n)), ("isEmailVerified", d.isEmailVerified.map .bool)]

/-- The JavaScript object a `childData` denotes; spreading `undefined` adds no key. -/
def ChildData.toObj : Option ChildData → Obj
  | none => []
  | some d =>
    members [("firstName", d.firstName.map .str), ("lastName", d.lastName.map .str),
      ("age", d.age.map .int), ("documentNumber", d.documentNumber.map .str),
      ("id", d.id.map (fun n => .int n)), ("ParentId", d.ParentId.map (fun n => .int n))]

/-- The `user` member of the register response. -/
structure UserSummary where
  id : Nat
  email : String
  firstName : String
  lastName : String
deriving DecidableEq, Repr

/-- JSON bodies the handlers send. -/
inductive Body where
  | flagged (success : Bool) (message : String)
  | message (message : String)
  | token (token : String)
  | registered (message : String) (token : String) (user : UserSummary)
  | invalid (message : String) (errors : List FieldError)
deriving DecidableEq, Repr

/-- An HTTP response: status and JSON body. -/
structure Response where
  status : Nat
  body : Body
deriving DecidableEq, Repr

/-- What handling one request amounts to: the response sent, the store
afterwards and the collaborator calls made, in order. -/
structure Outcome where
  response : Response
  store : Store
  calls : List Call
deriving DecidableEq, Repr

/-! ## Routes (server.js 184-302) -/

/-- Handler `POST /verify-code` (server.js 184-197). A body without `code`
makes the query throw. -/
def verifyCode (s : Store) (code : Option String) : Outcome :=
  match code with
  | none => ⟨⟨500, .flagged false "Error en el servidor"⟩, s, []⟩
  | some code =>
    match RegistrationCode.findOne s code with
    | some _ => ⟨⟨200, .flagged true "Código válido"⟩, s, []⟩
    | none => ⟨⟨400, .flagged false "Código inválido o ya utilizado"⟩, s, []⟩

/-- The `catch` block of the register handler (server.js 253-264): 400 with
the field errors for the two Sequelize errors it names, 500 for any other. -/
def registerCatch : DbError → Response
  | .validation errors => ⟨400, .invalid "Error de validación" errors⟩
  | .uniqueConstraint errors => ⟨400, .invalid "Error de validación" errors⟩
  | .other => ⟨500, .message "Error en el servidor"⟩

/-- Handler `POST /register` (server.js 200-265). A body without `code`
makes the query throw; a body without `parentData` or `parentData.password`
makes line 211 throw. -/
def register (c : Collaborators) (s : Store) (body : RegisterBody) : Outcome :=
  match body.code with
  | none => ⟨⟨500, .message "Error en el servidor"⟩, s, []⟩
  | some code =>
    match RegistrationCode.findOne s code with
    | none => ⟨⟨400, .message "Código inválido o ya utilizado"⟩, s, []⟩
    | some registrationCode =>
      match body.parentData, body.parentData.bind (fun d => d.password) with
      | some parentData, some password =>
        let hashedPassword := c.hash password
        match Parent.create c s (parentData.toObj.spread "password" (.str hashedPassword)) with
        | .error e => ⟨registerCatch e, s, [.hash password]⟩
        | .ok (parent, s1) =>
          match Child.create s1
              ((ChildData.toObj body.childData).spread "parentId" (.int parent.id)) with
          | .error e => ⟨registerCatch e, s1, [.hash password]⟩
          | .ok (_, s2) =>
            let s3 := RegistrationCode.update s2 registrationCode
            let payload : Obj := [("id", .int parent.id), ("email", .str parent.email)]
            let token := c.sign payload "1d"
            let verificationToken := c.sign [("email", .str parent.email)] "1d"
            let verificationUrl := "http://tudominio.com/verify-email/" ++ verificationToken
            let mail : Mail :=
              { recipient := parent.email, subject := "Verifica tu correo electrónico",
                html := "Por favor, verifica tu correo electrónico haciendo clic <a href=\"" ++
                  verificationUrl ++ "\">aquí</a>." }
            let calls := [Call.hash password, .sign payload "1d",
              .sign [("email", .str parent.email)] "1d", .sendMail mail]
            if c.sendMail mail then
              ⟨⟨201, .registered "Registro exitoso. Por favor, verifica tu correo electrónico."
                token ⟨parent.id, parent.email, parent.firstName, parent.lastName⟩⟩, s3, calls⟩
            else ⟨⟨500, .message "Error en el servidor"⟩, s3, calls⟩
      | _, _ => ⟨⟨500, .message "Error en el servidor"⟩, s, []⟩

/-- Handler `POST /login` (server.js 268-287). A body without `documentNumber`
makes the query throw; one without `password` makes `bcrypt.compare` throw. -/
def login (c : Collaborators) (s : Store) (body : LoginBody) : Outcome :=
  match body.documentNumber with
  | none => ⟨⟨500, .message "Error en el servidor"⟩, s, []⟩
  | some documentNumber =>
    match Parent.findOneByDocumentNumber s documentNumber with
    | none => ⟨⟨400, .message "Credenciales inválidas"⟩, s, []⟩
    | some parent =>
      match body.password with
      | none => ⟨⟨500, .message "Error en el servidor"⟩, s, []⟩
      | some password =>
        if !c.compare password parent.password then
          ⟨⟨400, .message "Credenciales inválidas"⟩, s, [.compare password parent.password]⟩
        else if !parent.isEmailVerified then
          ⟨⟨400, .message "Por favor, verifica tu correo electrónico antes de iniciar sesión"⟩,
            s, [.compare password parent.password]⟩
        else
          ⟨⟨200, .token (c.sign [("userId", .int parent.id)] "1h")⟩, s,
            [.compare password parent.password, .sign [("userId", .int parent.id)] "1h"]⟩

/-- Handler `GET /verify-email/:token` (server.js 289-302). A payload without
`email` makes the query throw. -/
def verifyEmail (c : Collaborators) (s : Store) (token : String) : Outcome :=
  match c.verify token with
  | none => ⟨⟨500, .message "Error en la verificación del correo electrónico"⟩, s,
      [.verify token]⟩
  | some decoded =>
    match decoded.email with
    | none => ⟨⟨500, .message "Error en la verificación del correo electrónico"⟩, s,
        [.verify token]⟩
    | some email =>
      match Parent.findOneByEmail s email with
      | none => ⟨⟨400, .message "Token inválido"⟩, s, [.verify token]⟩
      | some parent =>
        ⟨⟨200, .message "Correo electrónico verificado exitosamente"⟩, Parent.update s parent,
          [.verify token]⟩

/-! ## Interleaved execution of `POST /register`

Between two `await`s a handler runs without interruption, and each awaited
store call is one statement for the store.  A request in flight is therefore
at one of the points below, and two requests interleave at those points. -/

/-- Position of a register request between two awaited calls, with the local
variables that are live there. -/
inductive RegState where
  | start
  | found (registrationCode : RegistrationCode)
  | hashed (registrationCode : RegistrationCode) (parentData : ParentData)
      (hashedPassword : String)
  | parentCreated (registrationCode : RegistrationCode) (parent : Parent)
  | childCreated (registrationCode : RegistrationCode) (parent : Parent)
  | marked (parent : Parent)
  | done (response : Response)
deriving DecidableEq, Repr

/-- One awaited call of the register handler (server.js 205, 211, 212, 218,
224, 236) together with the synchronous code that follows it. -/
def regStep (c : Collaborators) (body : RegisterBody) (st : RegState) (s : Store) :
    RegState × Store :=
  match st with
  | .start =>
    match body.code with
    | none => (.done ⟨500, .message "Error en el servidor"⟩, s)
    | some code =>
      match RegistrationCode.findOne s code with
      | none => (.done ⟨400, .message "Código inválido o ya utilizado"⟩, s)
      | some registrationCode => (.found registrationCode, s)
  | .found registrationCode =>
    match body.parentData, body.parentData.bind (fun d => d.password) with
    | some parentData, some password => (.hashed registrationCode parentData (c.hash password), s)
    | _, _ => (.done ⟨500, .message "Error en el servidor"⟩, s)
  | .hashed registrationCode parentData hashedPassword =>
    match Parent.create c s (parentData.toObj.spread "password" (.str hashedPassword)) with
    | .error e => (.done (registerCatch e), s)
    | .ok (parent, s1) => (.parentCreated registrationCode parent, s1)
  | .parentCreated registrationCode parent =>
    match Child.create s ((ChildData.toObj body.childData).spread "parentId" (.int parent.id)) with
    | .error e => (.done (registerCatch e), s)
    | .ok (_, s2) => (.childCreated registrationCode parent, s2)
  | .childCreated registrationCode parent =>
    (.marked parent, RegistrationCode.update s registrationCode)
  | .marked parent =>
    let token := c.sign [("id", .int parent.id), ("email", .str parent.email)] "1d"
    let verificationToken := c.sign [("email", .str parent.email)] "1d"
    let verificationUrl := "http://tudominio.com/verify-email/" ++ verificationToken
    let mail : Mail :=
      { recipient := parent.email, subject := "Verifica tu correo electrónico",
        html := "Por favor, verifica tu correo electrónico haciendo clic <a href=\"" ++
          verificationUrl ++ "\">aquí</a>." }
    if c.sendMail mail then
      (.done ⟨201, .registered "Registro exitoso. Por favor, verifica tu correo electrónico."
        token ⟨parent.id, parent.email, parent.firstName, parent.lastName⟩⟩, s)
    else (.done ⟨500, .message "Error en el servidor"⟩, s)
  | .done response => (.done response, s)

/-- Two register requests in flight over one store. -/
structure Pair where
  first : RegState
  second : RegState
  store : Store
deriving DecidableEq, Repr

/-- Run two register requests under a schedule: `true` lets the first request
make its next awaited call, `false` the second. -/
def interleave (c : Collaborators) (bodyA bodyB : RegisterBody) : List Bool → Pair → Pair
  | [], p => p
  | true :: rest, p =>
    interleave c bodyA bodyB rest
      ⟨(regStep c bodyA p.first p.store).1, p.second, (regStep c bodyA p.first p.store).2⟩
  | false :: rest, p =>
    interleave c bodyA bodyB rest
      ⟨p.first, (regStep c bodyB p.second p.store).1, (regStep c bodyB p.second p.store).2⟩

/-- Response of a request that has finished. -/
def RegState.response? : RegState → Option Response
  | .done r => some r
  | _ => none

/-! ## Token lifetimes -/

/-- Seconds denoted by an `expiresIn` span of the form digits followed by one
of the units `s`, `m`, `h`, `d`. -/
def spanSeconds (span : String) : Option Nat :=
  match span.toList.reverse with
  | u :: ds =>
    if ds.isEmpty || !ds.all Char.isDigit then none
    else
      let n := ds.reverse.foldl (fun a ch => 10 * a + (ch.toNat - 48)) 0
      if u == 's' then some n
      else if u == 'm' then some (60 * n)
      else if u == 'h' then some (3600 * n)
      else if u == 'd' then some (86400 * n)
      else none
  | [] => none

/-- The verification mail the register handler sends for a parent (server.js 233-241). -/
def verificationMail (c : Collaborators) (parent : Parent) : Mail :=
  { recipient := parent.email, subject := "Verifica tu correo electrónico",
    html := "Por favor, verifica tu correo electrónico haciendo clic <a href=\"" ++
      ("http://tudominio.com/verify-email/" ++ c.sign [("email", .str parent.email)] "1d") ++
      "\">aquí</a>." }

/-! ## Sample collaborators and data -/

/-- A stand-in for bcrypt: a 29-character prefix followed by 31 characters
made from the password, 60 characters in all like a bcrypt hash. -/
def sampleHash (pw : String) : String :=
  String.mk ("$2a$10$N9qo8uLOickgx2ZMRZoMye".toList ++ (pw.toList ++ List.replicate 31 '.').take 31)

/-- Collaborators whose mail transport delivers. -/
def sampleCollaborators : Collaborators where
  hash := sampleHash
  compare := fun pw stored => stored == sampleHash pw
  sign := fun payload expiresIn =>
    match payload with
    | [("email", .str e)] => "verify:" ++ e
    | _ => "session:" ++ expiresIn
  verify := fun t => if t = "verify:ana@example.com" then some ⟨some "ana@example.com"⟩ else none
  sendMail := fun _ => true
  isEmail := fun e => e.toList.contains '@'

/-- The same collaborators with a mail transport that throws. -/
def mailDown : Collaborators :=
  { sampleCollaborators with sendMail := fun _ => false }

/-- A store with one unused code, one used code and no registrations. -/
def sampleStore : Store :=
  { codes := [⟨1, "ABC123", false⟩, ⟨2, "OLD999", true⟩], parents := [], children := [] }

/-- A valid parent payload with the given password. -/
def ana (password : String) : ParentData :=
  ⟨some "Ana", some "Ruiz", some "1001", some "555", some "ana@example.com", some password,
    none, none⟩

/-- A second valid parent payload sharing nothing with `ana`. -/
def bea : ParentData :=
  ⟨some "Bea", some "Soto", some "1002", some "556", some "bea@example.com", some "secreto2",
    none, none⟩

/-- A child payload with the given age and document number. -/
def leo (age : Int) (documentNumber : String) : ChildData :=
  ⟨some "Leo", some "Ruiz", some age, some documentNumber, none, none⟩

/-- The Parent row the sample registration creates. -/
def anaRow : Parent :=
  { id := 1, firstName := "Ana", lastName := "Ruiz", documentNumber := "1001",
    phoneNumber := "555", email := "ana@example.com", password := sampleHash "secreto1",
    isEmailVerified := false }

/-- The sample store after Ana registered with the code `ABC123`; the Child row
is as the register handler leaves it. -/
def registeredStore : Store :=
  { codes := [⟨1, "ABC123", true⟩, ⟨2, "OLD999", true⟩], parents := [anaRow],
    children := [⟨1, "Leo", "Ruiz", 7, "2001", none⟩] }

/-- A schedule in which both requests look the code up before either marks
it: one call of the first, one of the second, then each runs to its end. -/
def racingSchedule : List Bool :=
  [true, false] ++ List.replicate 5 true ++ List.replicate 5 false

/-- The errors a failed create carries. -/
def DbError.errors : DbError → List FieldError
  | .validation es => es
  | .uniqueConstraint es => es
  | .other => []

/-- A valid child payload whose caller-supplied foreign key names no Parent. -/
def orphan : ChildData :=
  ⟨some "Leo", some "Ruiz", some 7, some "2001", none, some 999⟩

/-- The registered store after Ana verified her email. -/
def verifiedStore : Store :=
  { registeredStore with parents := [{ anaRow with isEmailVerified := true }] }

/-! ## Properties -/

theorem le_foldr_max {ids : List Nat} {x : Nat} (h : x ∈ ids) : x ≤ ids.foldr max 0 := by
  induction ids with
  | nil => simp at h
  | cons a as ih =>
    simp only [List.mem_cons] at h
    simp only [List.foldr_cons]
    rcases h with h | h
    · rw [h]; exact le_max_left _ _
    · exact le_trans (ih h) (le_max_right _ _)

theorem nextId_not_mem (ids : List Nat) : nextId ids ∉ ids := by
  intro h
  have := le_foldr_max h
  unfold nextId at this
  omega

theorem primaryKey_fresh {o : Obj} {ids : List Nat} {n : Nat}
    (h : primaryKey o ids = .ok n) : n ∉ ids := by
  unfold primaryKey at h
  split at h
  · simp only [Except.ok.injEq] at h
    rw [← h]; exact nextId_not_mem ids
  · split at h
    · simp only [Except.ok.injEq] at h
      rw [← h]; exact nextId_not_mem ids
    · split at h
      · split at h
        · simp at h
        · rename_i hn
          simp only [Except.ok.injEq] at h
          rw [← h]; exact hn
      · simp at h
  · simp at h

theorem parent_create_ok {c : Collaborators} {s s1 : Store} {o : Obj} {p : Parent}
    (h : Parent.create c s o = .ok (p, s1)) :
    s1 = { s with parents := s.parents ++ [p] } ∧
    p.id ∉ s.parents.map (fun q => q.id) ∧
    o.text "email" = some p.email ∧ o.text "password" = some p.password ∧
    o.text "documentNumber" = some p.documentNumber ∧
    Parent.verifiedOf o = some p.isEmailVerified ∧
    (∀ q ∈ s.parents, q.documentNumber ≠ p.documentNumber) ∧
    (∀ q ∈ s.parents, q.email ≠ p.email) ∧
    Parent.validate c o = [] := by
  unfold Parent.create at h
  split at h
  · simp at h
  · rename_i hv
    split at h
    · rename_i fn ln dn ph em pw h1 h2 h3 h4 h5 h6
      split at h
      · simp at h
      · split at h
        · simp at h
        · simp at h
        · rename_i v id hver hid
          split at h
          · simp at h
          · split at h
            · simp at h
            · rename_i hd he
              simp only [Except.ok.injEq, Prod.mk.injEq] at h
              obtain ⟨hp, hs⟩ := h
              subst hp
              refine ⟨hs.symm, primaryKey_fresh hid, h5, h6, h3, hver, ?_, ?_, hv⟩
              · simpa using hd
              · simpa using he
    · simp at h

theorem child_create_ok {s s2 : Store} {o : Obj} {k : Child}
    (h : Child.create s o = .ok (k, s2)) :
    s2 = { s with children := s.children ++ [k] } ∧
    k.id ∉ s.children.map (fun q => q.id) ∧
    k.ParentId = Child.foreignKeyOf o ∧
    (∀ q ∈ s.children, q.documentNumber ≠ k.documentNumber) ∧
    Child.validate o = [] ∧
    Child.foreignKeyHolds s o = true := by
  unfold Child.create at h
  split at h
  · simp at h
  · rename_i hv
    split at h
    · split at h
      · simp at h
      · split at h
        · simp at h
        · rename_i id hid
          split at h
          · simp at h
          · split at h
            · simp at h
            · rename_i hd hfk
              simp only [Except.ok.injEq, Prod.mk.injEq] at h
              obtain ⟨hp, hs⟩ := h
              subst hp
              refine ⟨hs.symm, primaryKey_fresh hid, rfl, ?_, hv, ?_⟩
              · simpa using hd
              · simpa using hfk
    · simp at h

theorem registerCatch_status (e : DbError) :
    (registerCatch e).status = 400 ∨ (registerCatch e).status = 500 := by
  cases e
  · left; rfl
  · left; rfl
  · right; rfl

theorem registerCatch_ne_201 (e : DbError) : (registerCatch e).status ≠ 201 := by
  cases e <;> simp [registerCatch]

/-- Shape of every run of the register handler that answers 201. -/
theorem register_created {c : Collaborators} {s : Store} {body : RegisterBody}
    (h : (register c s body).response.status = 201) :
    ∃ code rc pd pw parent s1 child s2,
      body.code = some code ∧ RegistrationCode.findOne s code = some rc ∧
      body.parentData = some pd ∧ pd.password = some pw ∧
      Parent.create c s (pd.toObj.spread "password" (.str (c.hash pw))) = .ok (parent, s1) ∧
      Child.create s1 ((ChildData.toObj body.childData).spread "parentId" (.int parent.id))
        = .ok (child, s2) ∧
      c.sendMail (verificationMail c parent) = true ∧
      (register c s body).store = RegistrationCode.update s2 rc ∧
      (register c s body).response =
        ⟨201, .registered "Registro exitoso. Por favor, verifica tu correo electrónico."
          (c.sign [("id", .int parent.id), ("email", .str parent.email)] "1d")
          ⟨parent.id, parent.email, parent.firstName, parent.lastName⟩⟩ := by
  rcases body with ⟨pdo, cd, code⟩
  cases code with
  | none => simp [register] at h
  | some code =>
  cases hrc : RegistrationCode.findOne s code with
  | none => simp [register, hrc] at h
  | some rc =>
  cases pdo with
  | none => simp [register, hrc] at h
  | some pd =>
  cases hpw : pd.password with
  | none => simp [register, hrc, hpw] at h
  | some pw =>
  cases hp : Parent.create c s (pd.toObj.spread "password" (.str (c.hash pw))) with
  | error e =>
    simp [register, hrc, hpw, hp] at h
    exact absurd h (registerCatch_ne_201 e)
  | ok v =>
  obtain ⟨parent, s1⟩ := v
  cases hk : Child.create s1 ((ChildData.toObj cd).spread "parentId" (.int parent.id)) with
  | error e =>
    simp [register, hrc, hpw, hp, hk] at h
    exact absurd h (registerCatch_ne_201 e)
  | ok w =>
  obtain ⟨child, s2⟩ := w
  cases hm : c.sendMail (verificationMail c parent) with
  | false =>
    simp only [verificationMail] at hm
    simp [register, hrc, hpw, hp, hk, hm] at h
  | true =>
    have hm2 := hm
    simp only [verificationMail] at hm
    refine ⟨code, rc, pd, pw, parent, s1, child, s2, rfl, hrc, rfl, hpw, hp, hk, hm2, ?_, ?_⟩
    · simp [register, hrc, hpw, hp, hk, hm]
    · simp [register, hrc, hpw, hp, hk, hm]

/-- Shape of every run of the register handler that does not answer 201. -/
theorem register_failed {c : Collaborators} {s : Store} {body : RegisterBody}
    (h : (register c s body).response.status ≠ 201) :
    ((register c s body).store = s ∧
      (body.code = none ∨
        (∃ code, body.code = some code ∧ RegistrationCode.findOne s code = none) ∨
        body.parentData = none ∨
        (∃ pd, body.parentData = some pd ∧ pd.password = none) ∨
        (∃ pd pw e, body.parentData = some pd ∧ pd.password = some pw ∧
          Parent.create c s (pd.toObj.spread "password" (.str (c.hash pw))) = .error e ∧
          (register c s body).response = registerCatch e))) ∨
    (∃ pd pw parent s1 e,
      body.parentData = some pd ∧ pd.password = some pw ∧
      Parent.create c s (pd.toObj.spread "password" (.str (c.hash pw))) = .ok (parent, s1) ∧
      Child.create s1 ((ChildData.toObj body.childData).spread "parentId" (.int parent.id))
        = .error e ∧
      register c s body = ⟨registerCatch e, s1, [.hash pw]⟩) ∨
    (∃ code rc pd pw parent s1 child s2,
      body.code = some code ∧ RegistrationCode.findOne s code = some rc ∧
      body.parentData = some pd ∧ pd.password = some pw ∧
      Parent.create c s (pd.toObj.spread "password" (.str (c.hash pw))) = .ok (parent, s1) ∧
      Child.create s1 ((ChildData.toObj body.childData).spread "parentId" (.int parent.id))
        = .ok (child, s2) ∧
      c.sendMail (verificationMail c parent) = false ∧
      (register c s body).store = RegistrationCode.update s2 rc ∧
      (register c s body).response = ⟨500, .message "Error en el servidor"⟩) := by
  rcases body with ⟨pdo, cd, code⟩
  cases code with
  | none => left; simp [register]
  | some code =>
  cases hrc : RegistrationCode.findOne s code with
  | none => left; simp [register, hrc]
  | some rc =>
  cases pdo with
  | none => left; simp [register, hrc]
  | some pd =>
  cases hpw : pd.password with
  | none => left; simp [register, hrc, hpw]
  | some pw =>
  cases hp : Parent.create c s (pd.toObj.spread "password" (.str (c.hash pw))) with
  | error e =>
    left
    refine ⟨by simp [register, hrc, hpw, hp], ?_⟩
    right; right; right; right
    exact ⟨pd, pw, e, rfl, hpw, hp, by simp [register, hrc, hpw, hp]⟩
  | ok v =>
  obtain ⟨parent, s1⟩ := v
  cases hk : Child.create s1 ((ChildData.toObj cd).spread "parentId" (.int parent.id)) with
  | error e =>
    right; left
    exact ⟨pd, pw, parent, s1, e, rfl, hpw, hp, hk, by simp [register, hrc, hpw, hp, hk]⟩
  | ok w =>
  obtain ⟨child, s2⟩ := w
  cases hm : c.sendMail (verificationMail c parent) with
  | true =>
    simp only [verificationMail] at hm
    simp [register, hrc, hpw, hp, hk, hm] at h
  | false =>
    right; right
    have hm2 := hm
    simp only [verificationMail] at hm
    refine ⟨code, rc, pd, pw, parent, s1, child, s2, rfl, hrc, rfl, hpw, hp, hk, hm2, ?_, ?_⟩
    · simp [register, hrc, hpw, hp, hk, hm]
    · simp [register, hrc, hpw, hp, hk, hm]

theorem findOne_eq_none_iff (s : Store) (code : String) :
    RegistrationCode.findOne s code = none ↔ ∀ r ∈ s.codes, r.code = code → r.isUsed = true := by
  unfold RegistrationCode.findOne
  rw [List.find?_eq_none]
  constructor
  · intro h r hr hc
    have := h r hr
    simp [hc] at this
    exact this
  · intro h r hr
    by_cases hc : r.code = code
    · simp [hc, h r hr hc]
    · simp [hc]

theorem findOne_some {s : Store} {code : String} {rc : RegistrationCode}
    (h : RegistrationCode.findOne s code = some rc) :
    rc ∈ s.codes ∧ rc.code = code ∧ rc.isUsed = false := by
  unfold RegistrationCode.findOne at h
  have h1 := List.mem_of_find?_eq_some h
  have h2 := List.find?_some h
  simp at h2
  exact ⟨h1, h2.1, h2.2⟩

theorem findOne_none_of_used {s : Store} {code : String}
    (hu : (s.codes.map (fun r => r.code)).Nodup)
    (h : (∃ r ∈ s.codes, r.code = code ∧ r.isUsed = true) ∨ (∀ r ∈ s.codes, r.code ≠ code)) :
    RegistrationCode.findOne s code = none := by
  rw [findOne_eq_none_iff]
  intro r hr hc
  rcases h with ⟨r0, hr0, hc0, hu0⟩ | h
  · have : r = r0 := List.inj_on_of_nodup_map hu hr hr0 (by rw [hc, hc0])
    rw [this]; exact hu0
  · exact absurd hc (h r hr)

theorem register_of_findOne_none (c : Collaborators) (s : Store) (pd : Option ParentData)
    (cd : Option ChildData) (code : String) (h : RegistrationCode.findOne s code = none) :
    register c s ⟨pd, cd, some code⟩ =
      ⟨⟨400, .message "Código inválido o ya utilizado"⟩, s, []⟩ := by
  simp [register, h]

/-- C2: in a store whose code values are unique, a code whose row is used, or
that has no row, is rejected by `POST /verify-code` and by `POST /register`
with status 400 and the message of an invalid code; the store is unchanged and
no collaborator (no hashing) is called. -/
theorem used_or_absent_code_rejected (c : Collaborators) (s : Store) (code : String)
    (hu : (s.codes.map (fun r => r.code)).Nodup)
    (h : (∃ r ∈ s.codes, r.code = code ∧ r.isUsed = true) ∨ (∀ r ∈ s.codes, r.code ≠ code))
    (parentData : Option ParentData) (childData : Option ChildData) :
    verifyCode s (some code) =
      ⟨⟨400, .flagged false "Código inválido o ya utilizado"⟩, s, []⟩ ∧
    register c s ⟨parentData, childData, some code⟩ =
      ⟨⟨400, .message "Código inválido o ya utilizado"⟩, s, []⟩ := by
  have hn := findOne_none_of_used hu h
  exact ⟨by simp [verifyCode, hn], register_of_findOne_none c s _ _ code hn⟩

/-- Witness of C2 at the used code of the sample store and at an absent code. -/
theorem used_or_absent_code_rejected_witness :
    (sampleStore.codes.map (fun r => r.code)).Nodup ∧
    (∃ r ∈ sampleStore.codes, r.code = "OLD999" ∧ r.isUsed = true) ∧
    (∀ r ∈ sampleStore.codes, r.code ≠ "NOPE") ∧
    (verifyCode sampleStore (some "OLD999") =
        ⟨⟨400, .flagged false "Código inválido o ya utilizado"⟩, sampleStore, []⟩ ∧
      register sampleCollaborators sampleStore
          ⟨some (ana "secreto1"), some (leo 7 "2001"), some "OLD999"⟩ =
        ⟨⟨400, .message "Código inválido o ya utilizado"⟩, sampleStore, []⟩) ∧
    (verifyCode sampleStore (some "NOPE") =
        ⟨⟨400, .flagged false "Código inválido o ya utilizado"⟩, sampleStore, []⟩ ∧
      register sampleCollaborators sampleStore
          ⟨some (ana "secreto1"), some (leo 7 "2001"), some "NOPE"⟩ =
        ⟨⟨400, .message "Código inválido o ya utilizado"⟩, sampleStore, []⟩) :=
  ⟨by decide, by decide, by decide,
    used_or_absent_code_rejected sampleCollaborators sampleStore "OLD999" (by decide)
      (Or.inl (by decide)) _ _,
    used_or_absent_code_rejected sampleCollaborators sampleStore "NOPE" (by decide)
      (Or.inr (by decide)) _ _⟩

theorem ParentData.text_email (pd : ParentData) (v : Value) :
    (pd.toObj.spread "password" v).text "email" = pd.email := by
  rcases pd with ⟨a, b, c, d, e, f, g, h⟩
  cases a <;> cases b <;> cases c <;> cases d <;> cases e <;> cases f <;> cases g <;> cases h <;>
    simp [ParentData.toObj, members, Obj.spread, Obj.text, Obj.get, List.lookup, List.filter]

theorem ParentData.text_password (pd : ParentData) (v : String) :
    (pd.toObj.spread "password" (.str v)).text "password" = some v := by
  rcases pd with ⟨a, b, c, d, e, f, g, h⟩
  cases a <;> cases b <;> cases c <;> cases d <;> cases e <;> cases f <;> cases g <;> cases h <;>
    simp [ParentData.toObj, members, Obj.spread, Obj.text, Obj.get, List.lookup, List.filter]

theorem update_codes_mem {s : Store} {rc r : RegistrationCode}
    (h : r ∈ (RegistrationCode.update s rc).codes) :
    ∃ r0 ∈ s.codes, r = (if r0.id = rc.id then { r0 with isUsed := true } else r0) := by
  simp only [RegistrationCode.update, List.mem_map] at h
  obtain ⟨r0, h0, h1⟩ := h
  exact ⟨r0, h0, h1.symm⟩

theorem update_used {s : Store} {rc : RegistrationCode}
    (hu : (s.codes.map (fun r => r.code)).Nodup) (hrc : rc ∈ s.codes) :
    ∀ r ∈ (RegistrationCode.update s rc).codes, r.code = rc.code → r.isUsed = true := by
  intro r hr hc
  obtain ⟨r0, h0, h1⟩ := update_codes_mem hr
  by_cases hid : r0.id = rc.id
  · rw [if_pos hid] at h1
    rw [h1]
  · rw [if_neg hid] at h1
    subst h1
    have : r = rc := List.inj_on_of_nodup_map hu h0 hrc hc
    exact absurd (by rw [this]) hid

theorem update_mem_used {s : Store} {rc : RegistrationCode} (hrc : rc ∈ s.codes) :
    ∃ r ∈ (RegistrationCode.update s rc).codes, r.code = rc.code ∧ r.isUsed = true := by
  refine ⟨{ rc with isUsed := true }, ?_, rfl, rfl⟩
  simp only [RegistrationCode.update, List.mem_map]
  exact ⟨rc, hrc, by simp⟩

/-- After a registration answered 201 every row of its code is used. -/
theorem register_redeems_once_aux (c : Collaborators) (s : Store) (body : RegisterBody)
    (code : String) (hs : s.WF) (hcode : body.code = some code)
    (h : (register c s body).response.status = 201) :
    ∀ r ∈ (register c s body).store.codes, r.code = code → r.isUsed = true := by
  obtain ⟨code2, rc, pd, pw, parent, s1, child, s2, h1, hrc, hpd, _, hp, hk, _, hst, hre⟩ :=
    register_created h
  rw [hcode] at h1
  simp only [Option.some.injEq] at h1
  subst h1
  obtain ⟨hs1, _⟩ := parent_create_ok hp
  obtain ⟨hs2, _⟩ := child_create_ok hk
  obtain ⟨hmem, hrcc, _⟩ := findOne_some hrc
  have hcodes : s2.codes = s.codes := by rw [hs2, hs1]
  rw [hst, ← hrcc]
  exact update_used (by rw [hcodes]; exact hs.2.1) (by rw [hcodes]; exact hmem)

/-- C3: when `POST /register` answers 201 for code `code` on a store that
satisfies the schema constraints, the response carries a token and a
`user.email` equal to `parentData.email`, the row of `code` is used in the
resulting store, and a second `POST /register` with that code on the resulting
store, whatever its payload, answers 400 with the message of an invalid code
and leaves the store as it is (no further Parent or Child row). -/
theorem register_redeems_once (c : Collaborators) (s : Store) (body : RegisterBody)
    (code : String) (hs : s.WF) (hcode : body.code = some code)
    (h : (register c s body).response.status = 201) :
    (∃ message token user pd, (register c s body).response.body = .registered message token user ∧
      body.parentData = some pd ∧ pd.email = some user.email) ∧
    (∃ r ∈ (register c s body).store.codes, r.code = code ∧ r.isUsed = true) ∧
    (∀ r ∈ (register c s body).store.codes, r.code = code → r.isUsed = true) ∧
    ∀ (parentData : Option ParentData) (childData : Option ChildData),
      register c (register c s body).store ⟨parentData, childData, some code⟩ =
        ⟨⟨400, .message "Código inválido o ya utilizado"⟩, (register c s body).store, []⟩ := by
  obtain ⟨code2, rc, pd, pw, parent, s1, child, s2, h1, hrc, hpd, _, hp, hk, _, hst, hre⟩ :=
    register_created h
  rw [hcode] at h1
  simp only [Option.some.injEq] at h1
  subst h1
  obtain ⟨hs1, _, hem, _⟩ := parent_create_ok hp
  obtain ⟨hs2, _⟩ := child_create_ok hk
  obtain ⟨hmem, hrcc, _⟩ := findOne_some hrc
  have hcodes : s2.codes = s.codes := by rw [hs2, hs1]
  have hu : (s2.codes.map (fun r => r.code)).Nodup := by rw [hcodes]; exact hs.2.1
  have hmem2 : rc ∈ s2.codes := by rw [hcodes]; exact hmem
  have hall : ∀ r ∈ (register c s body).store.codes, r.code = code → r.isUsed = true := by
    rw [hst, ← hrcc]
    exact update_used hu hmem2
  refine ⟨⟨_, _, _, pd, by rw [hre], hpd, ?_⟩, ?_, hall, ?_⟩
  · rw [ParentData.text_email] at hem
    exact hem
  · rw [hst, ← hrcc]
    exact update_mem_used hmem2
  · intro parentData childData
    exact register_of_findOne_none c _ _ _ code ((findOne_eq_none_iff _ _).2 hall)

/-- Witness of C3: the sample registration with the unused code `ABC123`. -/
theorem register_redeems_once_witness :
    sampleStore.WF ∧
    (register sampleCollaborators sampleStore
      ⟨some (ana "secreto1"), some (leo 7 "2001"), some "ABC123"⟩).response.status = 201 ∧
    (∃ message token user pd,
      (register sampleCollaborators sampleStore
        ⟨some (ana "secreto1"), some (leo 7 "2001"), some "ABC123"⟩).response.body =
          .registered message token user ∧
      (some (ana "secreto1")) = some pd ∧ pd.email = some user.email) ∧
    (∃ r ∈ (register sampleCollaborators sampleStore
        ⟨some (ana "secreto1"), some (leo 7 "2001"), some "ABC123"⟩).store.codes,
      r.code = "ABC123" ∧ r.isUsed = true) ∧
    (∀ r ∈ (register sampleCollaborators sampleStore
        ⟨some (ana "secreto1"), some (leo 7 "2001"), some "ABC123"⟩).store.codes,
      r.code = "ABC123" → r.isUsed = true) ∧
    ∀ (parentData : Option ParentData) (childData : Option ChildData),
      register sampleCollaborators
          (register sampleCollaborators sampleStore
            ⟨some (ana "secreto1"), some (leo 7 "2001"), some "ABC123"⟩).store
          ⟨parentData, childData, some "ABC123"⟩ =
        ⟨⟨400, .message "Código inválido o ya utilizado"⟩,
          (register sampleCollaborators sampleStore
            ⟨some (ana "secreto1"), some (leo 7 "2001"), some "ABC123"⟩).store, []⟩ :=
  ⟨by decide, by decide,
    register_redeems_once sampleCollaborators sampleStore
      ⟨some (ana "secreto1"), some (leo 7 "2001"), some "ABC123"⟩ "ABC123"
      (by decide) rfl (by decide)⟩

/-- C1 (counterexample): with the valid unused code `ABC123`, a valid parent
and a child aged 19, `Parent.create` succeeds and `Child.create` fails
validation; the response is 400, yet the store now holds the Parent row. -/
theorem register_failure_not_atomic :
    (register sampleCollaborators sampleStore
      ⟨some (ana "secreto1"), some (leo 19 "2001"), some "ABC123"⟩).response =
        ⟨400, .invalid "Error de validación" [⟨"age", "La edad no puede ser mayor a 18 años"⟩]⟩ ∧
    (register sampleCollaborators sampleStore
      ⟨some (ana "secreto1"), some (leo 19 "2001"), some "ABC123"⟩).store ≠ sampleStore ∧
    (register sampleCollaborators sampleStore
      ⟨some (ana "secreto1"), some (leo 19 "2001"), some "ABC123"⟩).store.parents.length =
        sampleStore.parents.length + 1 := by
  decide

/-- C1 (amended): when `POST /register` answers anything but 201, one of three
things happened. (a) The store is unchanged and the failure lies at or before
`Parent.create`: the code is missing or its lookup found no unused row, the
parent data or its password is missing, or `Parent.create` itself failed.
(b) `Parent.create` succeeded, adding exactly the Parent row `parent`, and
`Child.create` on that store failed: the response is the one the `catch`
gives that error (400 for a validation or unique-constraint error, 500 for
any other error of the store), and the store is the store before plus that one
Parent row, with no Child row and no code changed. (c) `Parent.create` and
`Child.create` succeeded, the code was marked and the mail transport threw:
the response is 500 and the store holds the new Parent row, the new Child row
and the row of the code with `isUsed = true`, every other code row as before. -/
theorem register_failure_store (c : Collaborators) (s : Store) (body : RegisterBody)
    (h : (register c s body).response.status ≠ 201) :
    ((register c s body).store = s ∧
      (body.code = none ∨
        (∃ code, body.code = some code ∧ RegistrationCode.findOne s code = none) ∨
        body.parentData = none ∨
        (∃ pd, body.parentData = some pd ∧ pd.password = none) ∨
        (∃ pd pw e, body.parentData = some pd ∧ pd.password = some pw ∧
          Parent.create c s (pd.toObj.spread "password" (.str (c.hash pw))) = .error e ∧
          (register c s body).response = registerCatch e))) ∨
    (∃ pd pw parent e,
      body.parentData = some pd ∧ pd.password = some pw ∧
      Parent.create c s (pd.toObj.spread "password" (.str (c.hash pw))) =
        .ok (parent, ⟨s.codes, s.parents ++ [parent], s.children⟩) ∧
      Child.create ⟨s.codes, s.parents ++ [parent], s.children⟩
        ((ChildData.toObj body.childData).spread "parentId" (.int parent.id)) = .error e ∧
      (register c s body).response = registerCatch e ∧
      ((register c s body).response.status = 400 ∨ (register c s body).response.status = 500) ∧
      (register c s body).store = ⟨s.codes, s.parents ++ [parent], s.children⟩) ∨
    (∃ code rc pd pw parent child,
      body.code = some code ∧ RegistrationCode.findOne s code = some rc ∧
      body.parentData = some pd ∧ pd.password = some pw ∧
      Parent.create c s (pd.toObj.spread "password" (.str (c.hash pw))) =
        .ok (parent, ⟨s.codes, s.parents ++ [parent], s.children⟩) ∧
      Child.create ⟨s.codes, s.parents ++ [parent], s.children⟩
        ((ChildData.toObj body.childData).spread "parentId" (.int parent.id)) =
        .ok (child, ⟨s.codes, s.parents ++ [parent], s.children ++ [child]⟩) ∧
      c.sendMail (verificationMail c parent) = false ∧
      (register c s body).response = ⟨500, .message "Error en el servidor"⟩ ∧
      (register c s body).store.parents = s.parents ++ [parent] ∧
      (register c s body).store.children = s.children ++ [child] ∧
      (register c s body).store.codes =
        s.codes.map (fun r => if r.id = rc.id then { r with isUsed := true } else r) ∧
      (∃ r ∈ (register c s body).store.codes, r.code = code ∧ r.isUsed = true)) := by
  rcases register_failed h with h1 | ⟨pd, pw, parent, s1, e, hpd, hpw, hp, hk, hr⟩ |
    ⟨code, rc, pd, pw, parent, s1, child, s2, hc, hrc, hpd, hpw, hp, hk, hm, hst, hre⟩
  · exact Or.inl h1
  · right; left
    obtain ⟨hs1, _⟩ := parent_create_ok hp
    subst hs1
    refine ⟨pd, pw, parent, e, hpd, hpw, hp, hk, by rw [hr], ?_, by rw [hr]⟩
    rw [hr]; exact registerCatch_status e
  · right; right
    obtain ⟨hs1, _⟩ := parent_create_ok hp
    obtain ⟨hs2, _⟩ := child_create_ok hk
    obtain ⟨hmem, hrcc, _⟩ := findOne_some hrc
    subst hs1
    subst hs2
    refine ⟨code, rc, pd, pw, parent, child, hc, hrc, hpd, hpw, hp, hk, hm, hre,
      by rw [hst]; rfl, by rw [hst]; rfl, by rw [hst]; rfl, ?_⟩
    rw [hst, ← hrcc]
    exact update_mem_used hmem

/-- Witness of C1 (amended): with the code `ABC123` and a valid parent, a child
whose foreign key names no Parent is refused by the store after the Parent row
is in; the response is 500 and the store is the store before plus that row. -/
theorem register_failure_store_witness :
    (register sampleCollaborators sampleStore
      ⟨some (ana "secreto1"), some orphan, some "ABC123"⟩).response.status ≠ 201 ∧
    (∃ parent e,
      Parent.create sampleCollaborators sampleStore
          ((ana "secreto1").toObj.spread "password" (.str (sampleCollaborators.hash "secreto1"))) =
        .ok (parent, ⟨sampleStore.codes, sampleStore.parents ++ [parent], sampleStore.children⟩) ∧
      Child.create ⟨sampleStore.codes, sampleStore.parents ++ [parent], sampleStore.children⟩
        ((ChildData.toObj (some orphan)).spread "parentId" (.int parent.id)) = .error e ∧
      (register sampleCollaborators sampleStore
        ⟨some (ana "secreto1"), some orphan, some "ABC123"⟩).response = registerCatch e ∧
      (register sampleCollaborators sampleStore
        ⟨some (ana "secreto1"), some orphan, some "ABC123"⟩).store =
          ⟨sampleStore.codes, sampleStore.parents ++ [parent], sampleStore.children⟩) ∧
    (register sampleCollaborators sampleStore
      ⟨some (ana "secreto1"), some orphan, some "ABC123"⟩).response =
        ⟨500, .message "Error en el servidor"⟩ ∧
    (register sampleCollaborators sampleStore
      ⟨some (ana "secreto1"), some orphan, some "ABC123"⟩).store =
        ⟨sampleStore.codes, [anaRow], []⟩ := by
  refine ⟨by decide, ?_, by decide, by decide⟩
  rcases register_failure_store sampleCollaborators sampleStore
      ⟨some (ana "secreto1"), some orphan, some "ABC123"⟩ (by decide) with
    h | ⟨pd, pw, parent, e, hpd, hpw, hp, hk, hr, _, hs⟩ |
    ⟨_, _, _, _, _, _, _, _, _, _, _, _, hm, _⟩
  · exact absurd h.1 (by decide)
  · simp only [Option.some.injEq] at hpd
    subst hpd
    have : pw = "secreto1" := by
      have : some pw = some "secreto1" := hpw.symm.trans rfl
      simpa using this
    subst this
    exact ⟨parent, e, hp, hk, hr, hs⟩
  · simp [sampleCollaborators] at hm

theorem findOneByDocumentNumber_eq_none_iff (s : Store) (dn : String) :
    Parent.findOneByDocumentNumber s dn = none ↔ ∀ p ∈ s.parents, p.documentNumber ≠ dn := by
  unfold Parent.findOneByDocumentNumber
  rw [List.find?_eq_none]
  simp

theorem findOneByDocumentNumber_some {s : Store} {dn : String} {p : Parent}
    (h : Parent.findOneByDocumentNumber s dn = some p) :
    p ∈ s.parents ∧ p.documentNumber = dn := by
  unfold Parent.findOneByDocumentNumber at h
  have h1 := List.mem_of_find?_eq_some h
  have h2 := List.find?_some h
  simp at h2
  exact ⟨h1, h2⟩

theorem findOneByDocumentNumber_of_mem {s : Store} {p : Parent}
    (hu : (s.parents.map (fun q => q.documentNumber)).Nodup) (hp : p ∈ s.parents) :
    Parent.findOneByDocumentNumber s p.documentNumber = some p := by
  cases hf : Parent.findOneByDocumentNumber s p.documentNumber with
  | none => exact absurd rfl ((findOneByDocumentNumber_eq_none_iff s _).1 hf p hp)
  | some q =>
    obtain ⟨h1, h2⟩ := findOneByDocumentNumber_some hf
    rw [List.inj_on_of_nodup_map hu h1 hp h2]

/-- C5: on every store state (one that satisfies the schema constraints) and
for every `(documentNumber, password)`, `POST /login` follows the reference
decision. If no Parent of the store has the document number the response is
400 `Credenciales inválidas`. For the Parent `p` of the store that has it: if
the password does not compare-match `p.password` the response is that same
400, whatever `p.isEmailVerified`; else if `p.isEmailVerified` is false the
response is the 400 asking to verify the email; else it is 200 with the token
signed over `userId: p.id` alone with expiry `1h`, which is shorter than the
`1d` of the session token every successful registration signs. A token is
returned exactly when a Parent of the store has the document number, matches
the password and is verified, and the store is never changed. -/
theorem login_reference (c : Collaborators) (s : Store) (documentNumber password : String)
    (hs : s.WF) :
    ((∀ p ∈ s.parents, p.documentNumber ≠ documentNumber) →
      (login c s ⟨some documentNumber, some password⟩).response =
        ⟨400, .message "Credenciales inválidas"⟩) ∧
    (∀ p ∈ s.parents, p.documentNumber = documentNumber →
      (c.compare password p.password = false →
        (login c s ⟨some documentNumber, some password⟩).response =
          ⟨400, .message "Credenciales inválidas"⟩) ∧
      (c.compare password p.password = true → p.isEmailVerified = false →
        (login c s ⟨some documentNumber, some password⟩).response =
          ⟨400, .message "Por favor, verifica tu correo electrónico antes de iniciar sesión"⟩) ∧
      (c.compare password p.password = true → p.isEmailVerified = true →
        (login c s ⟨some documentNumber, some password⟩).response =
          ⟨200, .token (c.sign [("userId", .int p.id)] "1h")⟩)) ∧
    ((∃ token, (login c s ⟨some documentNumber, some password⟩).response.body = .token token) ↔
      ∃ p ∈ s.parents, p.documentNumber = documentNumber ∧
        c.compare password p.password = true ∧ p.isEmailVerified = true) ∧
    (login c s ⟨some documentNumber, some password⟩).store = s ∧
    (∃ a b, spanSeconds "1h" = some a ∧ spanSeconds "1d" = some b ∧ a < b) ∧
    (∀ body, (register c s body).response.status = 201 →
      ∃ message payload user, (register c s body).response.body =
        .registered message (c.sign payload "1d") user) := by
  have hu := hs.2.2.2.1
  refine ⟨?_, ?_, ?_, ?_, ⟨3600, 86400, by decide, by decide, by decide⟩, ?_⟩
  · intro h
    have := (findOneByDocumentNumber_eq_none_iff s documentNumber).2 h
    simp [login, this]
  · intro p hmem hdn
    have hp := findOneByDocumentNumber_of_mem hu hmem
    rw [hdn] at hp
    refine ⟨?_, ?_, ?_⟩
    · intro hc; simp [login, hp, hc]
    · intro hc hv; simp [login, hp, hc, hv]
    · intro hc hv; simp [login, hp, hc, hv]
  · constructor
    · intro htok
      cases hp : Parent.findOneByDocumentNumber s documentNumber with
      | none => simp [login, hp] at htok
      | some p =>
        obtain ⟨h1, h2⟩ := findOneByDocumentNumber_some hp
        cases hc : c.compare password p.password <;> cases hv : p.isEmailVerified <;>
          simp [login, hp, hc, hv] at htok
        exact ⟨p, h1, h2, hc, hv⟩
    · rintro ⟨p, hmem, hdn, hc, hv⟩
      have hp := findOneByDocumentNumber_of_mem hu hmem
      rw [hdn] at hp
      simp [login, hp, hc, hv]
  · cases hp : Parent.findOneByDocumentNumber s documentNumber with
    | none => simp [login, hp]
    | some p =>
      cases hc : c.compare password p.password <;> cases hv : p.isEmailVerified <;>
        simp [login, hp, hc, hv]
  · intro body h
    obtain ⟨_, _, _, _, parent, _, _, _, _, _, _, _, _, _, _, _, hre⟩ := register_created h
    exact ⟨_, _, _, by rw [hre]⟩

/-- Witness of C5: on the store where Ana is verified her password yields the
token and a wrong password the 400; before she verified, her password yields
the 400 asking to verify the email. -/
theorem login_reference_witness :
    verifiedStore.WF ∧ registeredStore.WF ∧
    (login sampleCollaborators verifiedStore ⟨some "1001", some "secreto1"⟩).response =
      ⟨200, .token (sampleCollaborators.sign [("userId", .int 1)] "1h")⟩ ∧
    (login sampleCollaborators verifiedStore ⟨some "1001", some "otra"⟩).response =
      ⟨400, .message "Credenciales inválidas"⟩ ∧
    (login sampleCollaborators registeredStore ⟨some "1001", some "secreto1"⟩).response =
      ⟨400, .message "Por favor, verifica tu correo electrónico antes de iniciar sesión"⟩ ∧
    (login sampleCollaborators verifiedStore ⟨some "9999", some "secreto1"⟩).response =
      ⟨400, .message "Credenciales inválidas"⟩ :=
  ⟨by decide, by decide,
    ((login_reference sampleCollaborators verifiedStore "1001" "secreto1" (by decide)).2.1
      { anaRow with isEmailVerified := true } (by decide) (by decide)).2.2 (by decide) (by decide),
    ((login_reference sampleCollaborators verifiedStore "1001" "otra" (by decide)).2.1
      { anaRow with isEmailVerified := true } (by decide) (by decide)).1 (by decide),
    ((login_reference sampleCollaborators registeredStore "1001" "secreto1" (by decide)).2.1
      anaRow (by decide) (by decide)).2.1 (by decide) (by decide),
    (login_reference sampleCollaborators verifiedStore "9999" "secreto1" (by decide)).1
      (by decide)⟩

theorem findOneByEmail_of_mem {s : Store} {p : Parent}
    (hu : (s.parents.map (fun q => q.email)).Nodup) (hp : p ∈ s.parents) :
    Parent.findOneByEmail s p.email = some p := by
  unfold Parent.findOneByEmail
  cases hf : s.parents.find? (fun q => q.email == p.email) with
  | none =>
    rw [List.find?_eq_none] at hf
    have := hf p hp
    simp at this
  | some q =>
    have h1 := List.mem_of_find?_eq_some hf
    have h2 := List.find?_some hf
    simp at h2
    rw [List.inj_on_of_nodup_map hu h1 hp h2]

theorem update_parents_eq {s : Store} {p : Parent}
    (hu : (s.parents.map (fun q => q.id)).Nodup) (hp : p ∈ s.parents) :
    (Parent.update s p).parents =
      s.parents.map (fun q => if q = p then { p with isEmailVerified := true } else q) := by
  simp only [Parent.update]
  apply List.map_congr_left
  intro q hq
  by_cases hid : q.id = p.id
  · have : q = p := List.inj_on_of_nodup_map hu hq hp hid
    subst this
    simp
  · have : q ≠ p := fun e => hid (by rw [e])
    simp [hid, this]

theorem update_idem (s : Store) (p : Parent) :
    Parent.update (Parent.update s p) { p with isEmailVerified := true } = Parent.update s p := by
  simp only [Parent.update, List.map_map, Store.mk.injEq, true_and, and_true]
  apply List.map_congr_left
  intro q _
  by_cases hid : q.id = p.id <;> simp [hid]

/-- C6: on a store that satisfies the schema constraints, for a token that
verifies and whose email belongs to the Parent `p`, `GET /verify-email/:token`
answers 200 and yields a store in which `p` is verified and which differs from
the store before in nothing but the `isEmailVerified` field of `p` (all other
Parents, the other fields of `p`, the Children and the codes are the same);
a second call with the same token on the resulting store answers 200 again
and leaves that store as it is. -/
theorem verifyEmail_idempotent (c : Collaborators) (s : Store) (token : String) (p : Parent)
    (hs : s.WF) (hv : c.verify token = some ⟨some p.email⟩) (hp : p ∈ s.parents) :
    (verifyEmail c s token).response =
      ⟨200, .message "Correo electrónico verificado exitosamente"⟩ ∧
    (verifyEmail c s token).store.parents =
      s.parents.map (fun q => if q = p then { p with isEmailVerified := true } else q) ∧
    ({ p with isEmailVerified := true } : Parent) ∈ (verifyEmail c s token).store.parents ∧
    (verifyEmail c s token).store.children = s.children ∧
    (verifyEmail c s token).store.codes = s.codes ∧
    (verifyEmail c (verifyEmail c s token).store token).response =
      ⟨200, .message "Correo electrónico verificado exitosamente"⟩ ∧
    (verifyEmail c (verifyEmail c s token).store token).store = (verifyEmail c s token).store := by
  have hf := findOneByEmail_of_mem hs.2.2.2.2.1 hp
  have h1 : verifyEmail c s token =
      ⟨⟨200, .message "Correo electrónico verificado exitosamente"⟩, Parent.update s p,
        [.verify token]⟩ := by
    simp [verifyEmail, hv, hf]
  have hpar := update_parents_eq hs.2.2.1 hp
  have hmem : ({ p with isEmailVerified := true } : Parent) ∈ (Parent.update s p).parents := by
    rw [hpar, List.mem_map]
    exact ⟨p, hp, by simp⟩
  have hemails : ((Parent.update s p).parents.map (fun q => q.email)) =
      s.parents.map (fun q => q.email) := by
    simp only [Parent.update, List.map_map]
    apply List.map_congr_left
    intro q _
    by_cases hid : q.id = p.id <;> simp [hid]
  have hf2 : Parent.findOneByEmail (Parent.update s p) p.email =
      some { p with isEmailVerified := true } := by
    have := @findOneByEmail_of_mem (Parent.update s p) { p with isEmailVerified := true }
      (by rw [hemails]; exact hs.2.2.2.2.1) hmem
    simpa using this
  have h2 : verifyEmail c (Parent.update s p) token =
      ⟨⟨200, .message "Correo electrónico verificado exitosamente"⟩, Parent.update s p,
        [.verify token]⟩ := by
    simp [verifyEmail, hv, hf2, update_idem]
  rw [h1]
  refine ⟨rfl, hpar, hmem, rfl, rfl, ?_, ?_⟩
  · show (verifyEmail c (Parent.update s p) token).response = _
    rw [h2]
  · show (verifyEmail c (Parent.update s p) token).store = _
    rw [h2]

/-- Witness of C6: Ana verifies her email on the store her registration left. -/
theorem verifyEmail_idempotent_witness :
    registeredStore.WF ∧
    sampleCollaborators.verify "verify:ana@example.com" = some ⟨some anaRow.email⟩ ∧
    anaRow ∈ registeredStore.parents ∧
    (verifyEmail sampleCollaborators registeredStore "verify:ana@example.com").response =
      ⟨200, .message "Correo electrónico verificado exitosamente"⟩ ∧
    (verifyEmail sampleCollaborators
        (verifyEmail sampleCollaborators registeredStore "verify:ana@example.com").store
        "verify:ana@example.com").store =
      (verifyEmail sampleCollaborators registeredStore "verify:ana@example.com").store :=
  have h := verifyEmail_idempotent sampleCollaborators registeredStore "verify:ana@example.com"
    anaRow (by decide) (by decide) (by decide)
  ⟨by decide, by decide, by decide, h.1, h.2.2.2.2.2.2⟩

/-- C7 (counterexample): a token that `jwt.verify` rejects is answered with
status 500, not 400. -/
theorem verifyEmail_invalid_token_is_500 :
    sampleCollaborators.verify "garbage" = none ∧
    (verifyEmail sampleCollaborators registeredStore "garbage").response.status = 500 ∧
    (verifyEmail sampleCollaborators registeredStore "garbage").response.status ≠ 400 := by
  decide

theorem findOneByEmail_eq_none_iff (s : Store) (email : String) :
    Parent.findOneByEmail s email = none ↔ ∀ p ∈ s.parents, p.email ≠ email := by
  unfold Parent.findOneByEmail
  rw [List.find?_eq_none]
  simp

/-- C7 (amended): for every store and every token that `jwt.verify` rejects,
`GET /verify-email/:token` answers 500 with the message
`Error en la verificación del correo electrónico`, queries nothing further
and leaves the store unchanged. The 400 `Token inválido` is reserved for a
token that verifies but whose email belongs to no Parent: such a token gets
it, with the store unchanged, and no other token is answered 400. -/
theorem verifyEmail_invalid_token (c : Collaborators) (s : Store) (token : String) :
    (c.verify token = none →
      verifyEmail c s token =
        ⟨⟨500, .message "Error en la verificación del correo electrónico"⟩, s,
          [.verify token]⟩) ∧
    (∀ email, c.verify token = some ⟨some email⟩ → (∀ p ∈ s.parents, p.email ≠ email) →
      verifyEmail c s token = ⟨⟨400, .message "Token inválido"⟩, s, [.verify token]⟩) ∧
    ((verifyEmail c s token).response.status = 400 ↔
      ∃ email, c.verify token = some ⟨some email⟩ ∧ ∀ p ∈ s.parents, p.email ≠ email) := by
  refine ⟨?_, ?_, ?_⟩
  · intro h
    simp [verifyEmail, h]
  · intro email hv hno
    have hf := (findOneByEmail_eq_none_iff s email).2 hno
    simp [verifyEmail, hv, hf]
  · cases hv : c.verify token with
    | none => simp [verifyEmail, hv]
    | some d =>
      rcases d with ⟨e⟩
      cases e with
      | none => simp [verifyEmail, hv]
      | some email =>
        cases hf : Parent.findOneByEmail s email with
        | none =>
          have hno := (findOneByEmail_eq_none_iff s email).1 hf
          simp only [verifyEmail, hv, hf, true_iff]
          exact ⟨email, rfl, hno⟩
        | some p =>
          have h1 := List.mem_of_find?_eq_some hf
          have h2 := List.find?_some hf
          simp only [beq_iff_eq] at h2
          simp only [verifyEmail, hv, hf]
          constructor
          · intro h; exact absurd h (by decide)
          · rintro ⟨email2, he, hno⟩
            simp only [Option.some.injEq, Decoded.mk.injEq] at he
            subst he
            exact absurd h2 (hno p h1)

/-- Witness of C7 (amended): a token the sample verifier rejects gets the 500;
Ana's token on the store without Parents verifies, names no Parent and gets
the 400. -/
theorem verifyEmail_invalid_token_witness :
    sampleCollaborators.verify "garbage" = none ∧
    verifyEmail sampleCollaborators registeredStore "garbage" =
      ⟨⟨500, .message "Error en la verificación del correo electrónico"⟩, registeredStore,
        [.verify "garbage"]⟩ ∧
    sampleCollaborators.verify "verify:ana@example.com" = some ⟨some "ana@example.com"⟩ ∧
    verifyEmail sampleCollaborators sampleStore "verify:ana@example.com" =
      ⟨⟨400, .message "Token inválido"⟩, sampleStore, [.verify "verify:ana@example.com"]⟩ :=
  ⟨by decide,
    (verifyEmail_invalid_token sampleCollaborators registeredStore "garbage").1 (by decide),
    by decide,
    (verifyEmail_invalid_token sampleCollaborators sampleStore "verify:ana@example.com").2.1
      "ana@example.com" (by decide) (by decide)⟩

/-- C10 (counterexample): with a valid code and valid payloads, when the mail
transport throws the caller gets 500 and not the 201 success response, while
the Parent, the Child and the used code are persisted. -/
theorem register_mail_failure_is_500 :
    (register mailDown sampleStore
      ⟨some (ana "secreto1"), some (leo 7 "2001"), some "ABC123"⟩).response =
        ⟨500, .message "Error en el servidor"⟩ ∧
    (register mailDown sampleStore
      ⟨some (ana "secreto1"), some (leo 7 "2001"), some "ABC123"⟩).store = registeredStore := by
  decide

/-- C10 (amended): when the code is valid and `Parent.create`, `Child.create`
and the code update succeed but the mail transport throws, the response is
500 `Error en el servidor` (no token, no user summary), and nothing is rolled
back: the store holds the new Parent row, the new Child row and the code
marked used. -/
theorem register_mail_failure (c : Collaborators) (s s1 s2 : Store) (body : RegisterBody)
    (code : String) (rc : RegistrationCode) (pd : ParentData) (pw : String)
    (parent : Parent) (child : Child)
    (hcode : body.code = some code) (hrc : RegistrationCode.findOne s code = some rc)
    (hpd : body.parentData = some pd) (hpw : pd.password = some pw)
    (hp : Parent.create c s (pd.toObj.spread "password" (.str (c.hash pw))) = .ok (parent, s1))
    (hk : Child.create s1 ((ChildData.toObj body.childData).spread "parentId" (.int parent.id))
      = .ok (child, s2))
    (hm : c.sendMail (verificationMail c parent) = false) :
    (register c s body).response = ⟨500, .message "Error en el servidor"⟩ ∧
    (register c s body).store = RegistrationCode.update s2 rc ∧
    (register c s body).store.parents = s.parents ++ [parent] ∧
    (register c s body).store.children = s.children ++ [child] ∧
    (∃ r ∈ (register c s body).store.codes, r.code = code ∧ r.isUsed = true) := by
  obtain ⟨hs1, _⟩ := parent_create_ok hp
  obtain ⟨hs2, _⟩ := child_create_ok hk
  obtain ⟨hmem, hrcc, _⟩ := findOne_some hrc
  rcases body with ⟨pdo, cd, co⟩
  simp only at hcode hpd hk
  subst hcode hpd
  have hm2 := hm
  simp only [verificationMail] at hm2
  have hst : (register c s ⟨some pd, cd, some code⟩).store = RegistrationCode.update s2 rc := by
    simp [register, hrc, hpw, hp, hk, hm2]
  refine ⟨by simp [register, hrc, hpw, hp, hk, hm2], hst, ?_, ?_, ?_⟩
  · rw [hst, hs2, hs1]; rfl
  · rw [hst, hs2, hs1]; rfl
  · rw [hst, ← hrcc]
    apply update_mem_used
    rw [hs2, hs1]; exact hmem

/-- Witness of C10 (amended): the sample registration with the mail transport down. -/
theorem register_mail_failure_witness :
    RegistrationCode.findOne sampleStore "ABC123" = some ⟨1, "ABC123", false⟩ ∧
    mailDown.sendMail (verificationMail mailDown anaRow) = false ∧
    (register mailDown sampleStore
      ⟨some (ana "secreto1"), some (leo 7 "2001"), some "ABC123"⟩).response =
        ⟨500, .message "Error en el servidor"⟩ ∧
    (register mailDown sampleStore
      ⟨some (ana "secreto1"), some (leo 7 "2001"), some "ABC123"⟩).store.parents =
        sampleStore.parents ++ [anaRow] :=
  have h := register_mail_failure mailDown sampleStore
    ⟨sampleStore.codes, [anaRow], []⟩ ⟨sampleStore.codes, [anaRow], [⟨1, "Leo", "Ruiz", 7, "2001", none⟩]⟩
    ⟨some (ana "secreto1"), some (leo 7 "2001"), some "ABC123"⟩ "ABC123" ⟨1, "ABC123", false⟩
    (ana "secreto1") "secreto1" anaRow ⟨1, "Leo", "Ruiz", 7, "2001", none⟩
    rfl (by decide) rfl rfl rfl rfl (by decide)
  ⟨by decide, by decide, h.1, h.2.2.1⟩

theorem ChildData.foreignKeyOf_spread (cd : Option ChildData) (v : Value) :
    Child.foreignKeyOf ((ChildData.toObj cd).spread "parentId" v) =
      cd.bind (fun d => d.ParentId) := by
  have hk : Child.foreignKey = "ParentId" := by decide
  cases cd with
  | none => simp [Child.foreignKeyOf, hk, ChildData.toObj, Obj.spread, Obj.get, List.lookup]
  | some d =>
    rcases d with ⟨a, b, n, e, i, f⟩
    cases a <;> cases b <;> cases n <;> cases e <;> cases i <;> cases f <;>
      simp [Child.foreignKeyOf, hk, ChildData.toObj, members, Obj.spread, Obj.get, List.lookup,
        List.filter]

/-- In every registration that answers 201 the foreign key of the Child row
added is the one the caller put in `childData`, null without one: the key
`parentId` the handler writes is not the foreign-key attribute and adds
nothing. -/
theorem register_child_foreign_key (c : Collaborators) (s : Store) (body : RegisterBody)
    (h : (register c s body).response.status = 201) :
    ∃ parent child, (register c s body).store.parents = s.parents ++ [parent] ∧
      (register c s body).store.children = s.children ++ [child] ∧
      child.ParentId = body.childData.bind (fun d => d.ParentId) := by
  obtain ⟨_, rc, _, _, parent, s1, child, s2, _, _, _, _, hp, hk, _, hst, _⟩ := register_created h
  obtain ⟨hs1, _⟩ := parent_create_ok hp
  obtain ⟨hs2, _, hfk, _⟩ := child_create_ok hk
  refine ⟨parent, child, ?_, ?_, ?_⟩
  · rw [hst, hs2, hs1]; rfl
  · rw [hst, hs2, hs1]; rfl
  · rw [hfk, ChildData.foreignKeyOf_spread]

/-- C8 (code behaviour): the association of server.js 160-161 names the
foreign key `ParentId`, the handler writes `parentId`; in the sample
registration, answered 201, the Parent row created has id 1 and the Child row
created has no Parent at all. -/
theorem register_child_foreign_key_unset :
    Child.foreignKey = "ParentId" ∧
    (register sampleCollaborators sampleStore
      ⟨some (ana "secreto1"), some (leo 7 "2001"), some "ABC123"⟩).response.status = 201 ∧
    (register sampleCollaborators sampleStore
      ⟨some (ana "secreto1"), some (leo 7 "2001"), some "ABC123"⟩).store.parents = [anaRow] ∧
    anaRow.id = 1 ∧
    (register sampleCollaborators sampleStore
      ⟨some (ana "secreto1"), some (leo 7 "2001"), some "ABC123"⟩).store.children =
        [⟨1, "Leo", "Ruiz", 7, "2001", none⟩] := by
  decide

/-- C9 (code behaviour): the password `abc` has three characters, so the rule
`len: [6, 100]` rejects it, but the rule is run on the 60-character hash; the
sample registration with that password is answered 201 and the Parent is
persisted. -/
theorem register_short_password_accepted :
    len 6 100 "abc" = false ∧
    len 6 100 (sampleCollaborators.hash "abc") = true ∧
    (register sampleCollaborators sampleStore
      ⟨some (ana "abc"), some (leo 7 "2001"), some "ABC123"⟩).response.status = 201 ∧
    (register sampleCollaborators sampleStore
      ⟨some (ana "abc"), some (leo 7 "2001"), some "ABC123"⟩).store.parents =
        [{ anaRow with password := sampleHash "abc" }] := by
  decide

theorem interleave_append (c : Collaborators) (bodyA bodyB : RegisterBody) (xs ys : List Bool)
    (p : Pair) :
    interleave c bodyA bodyB (xs ++ ys) p =
      interleave c bodyA bodyB ys (interleave c bodyA bodyB xs p) := by
  induction xs generalizing p with
  | nil => rfl
  | cons x xs ih => cases x <;> simp [interleave, ih]

/-- The handler is the step machine run without interruption: the five awaited
calls up to the marking of the code, then the mail. -/
theorem interleave_solo (c : Collaborators) (s : Store) (bodyA bodyB : RegisterBody)
    (b : RegState) :
    interleave c bodyA bodyB (List.replicate 6 true) ⟨.start, b, s⟩ =
      ⟨.done (register c s bodyA).response, b, (register c s bodyA).store⟩ := by
  rcases bodyA with ⟨pdo, cd, code⟩
  cases code with
  | none => simp [List.replicate, interleave, regStep, register]
  | some code =>
  cases hrc : RegistrationCode.findOne s code with
  | none => simp [List.replicate, interleave, regStep, register, hrc]
  | some rc =>
  cases pdo with
  | none => simp [List.replicate, interleave, regStep, register, hrc]
  | some pd =>
  cases hpw : pd.password with
  | none => simp [List.replicate, interleave, regStep, register, hrc, hpw]
  | some pw =>
  cases hp : Parent.create c s (pd.toObj.spread "password" (.str (c.hash pw))) with
  | error e => simp [List.replicate, interleave, regStep, register, hrc, hpw, hp]
  | ok v =>
  obtain ⟨parent, s1⟩ := v
  cases hk : Child.create s1 ((ChildData.toObj cd).spread "parentId" (.int parent.id)) with
  | error e => simp [List.replicate, interleave, regStep, register, hrc, hpw, hp, hk]
  | ok w =>
  obtain ⟨child, s2⟩ := w
  cases hm : c.sendMail (verificationMail c parent) <;>
    · simp only [verificationMail] at hm
      simp [List.replicate, interleave, regStep, register, hrc, hpw, hp, hk, hm]

/-- A successful request has marked the code after its first five awaited
calls; what remains is the mail. -/
theorem interleave_marked (c : Collaborators) (s : Store) (bodyA bodyB : RegisterBody)
    (b : RegState) (h : (register c s bodyA).response.status = 201) :
    ∃ parent,
      interleave c bodyA bodyB (List.replicate 5 true) ⟨.start, b, s⟩ =
        ⟨.marked parent, b, (register c s bodyA).store⟩ ∧
      regStep c bodyA (.marked parent) (register c s bodyA).store =
        (.done (register c s bodyA).response, (register c s bodyA).store) := by
  obtain ⟨code, rc, pd, pw, parent, s1, child, s2, hc, hrc, hpd, hpw, hp, hk, hm, hst, hre⟩ :=
    register_created h
  refine ⟨parent, ?_, ?_⟩
  · rw [hst]
    rcases bodyA with ⟨pdo, cd, co⟩
    simp only at hc hpd hk
    subst hc hpd
    simp [List.replicate, interleave, regStep, hrc, hpw, hp, hk]
  · rw [hre]
    simp only [verificationMail] at hm
    simp [regStep, hm]

theorem interleave_after_mark (c : Collaborators) (bodyA bodyB : RegisterBody) (code : String)
    (s : Store) (parent : Parent) (r : Response)
    (hB : bodyB.code = some code) (hn : RegistrationCode.findOne s code = none)
    (hstep : regStep c bodyA (.marked parent) s = (.done r, s)) :
    ∀ (rest : List Bool) (a b : RegState),
      (a = .marked parent ∨ a = .done r) →
      (b = .start ∨ b = .done ⟨400, .message "Código inválido o ya utilizado"⟩) →
      interleave c bodyA bodyB rest ⟨a, b, s⟩ =
        ⟨if true ∈ rest then .done r else a,
          if false ∈ rest then .done ⟨400, .message "Código inválido o ya utilizado"⟩ else b,
          s⟩ := by
  have hBstart : regStep c bodyB .start s =
      (.done ⟨400, .message "Código inválido o ya utilizado"⟩, s) := by
    simp [regStep, hB, hn]
  intro rest
  induction rest with
  | nil => intro a b _ _; simp [interleave]
  | cons x rest ih =>
    intro a b ha hb
    cases x with
    | true =>
      have hA : regStep c bodyA a s = (.done r, s) := by
        rcases ha with ha | ha
        · rw [ha]; exact hstep
        · rw [ha]; rfl
      simp only [interleave, hA]
      rw [ih (.done r) b (Or.inr rfl) hb]
      simp
    | false =>
      have hBs : regStep c bodyB b s =
          (.done ⟨400, .message "Código inválido o ya utilizado"⟩, s) := by
        rcases hb with hb | hb
        · rw [hb]; exact hBstart
        · rw [hb]; rfl
      simp only [interleave, hBs]
      rw [ih a _ ha (Or.inr rfl)]
      simp

/-- C4 (counterexample): two registrations with the same unused code `ABC123`
and payloads that share nothing, interleaved so that both lookups precede
both markings: both are answered 201 and two Parent rows are created. -/
theorem concurrent_redemption_both_succeed :
    (interleave sampleCollaborators
        ⟨some (ana "secreto1"), some (leo 7 "2001"), some "ABC123"⟩
        ⟨some bea, some (leo 9 "2002"), some "ABC123"⟩
        racingSchedule ⟨.start, .start, sampleStore⟩).first.response?.map (fun r => r.status)
      = some 201 ∧
    (interleave sampleCollaborators
        ⟨some (ana "secreto1"), some (leo 7 "2001"), some "ABC123"⟩
        ⟨some bea, some (leo 9 "2002"), some "ABC123"⟩
        racingSchedule ⟨.start, .start, sampleStore⟩).second.response?.map (fun r => r.status)
      = some 201 ∧
    (interleave sampleCollaborators
        ⟨some (ana "secreto1"), some (leo 7 "2001"), some "ABC123"⟩
        ⟨some bea, some (leo 9 "2002"), some "ABC123"⟩
        racingSchedule ⟨.start, .start, sampleStore⟩).store =
      { codes := [⟨1, "ABC123", true⟩, ⟨2, "OLD999", true⟩],
        parents := [anaRow,
          { id := 2, firstName := "Bea", lastName := "Soto", documentNumber := "1002",
            phoneNumber := "556", email := "bea@example.com",
            password := sampleHash "secreto2", isEmailVerified := false }],
        children := [⟨1, "Leo", "Ruiz", 7, "2001", none⟩, ⟨2, "Leo", "Ruiz", 9, "2002", none⟩] } := by
  decide

/-- C4 (amended): the lookup of the unused code and its marking are two
separate awaited calls. On a store that satisfies the schema constraints, when
a request that succeeds has made its first five calls (lookup through marking)
before a second request with the same code makes its lookup, then however the
remaining calls interleave the first request is answered 201, the second is
answered 400 with the message of an invalid code, and exactly one Parent row
has been created. -/
theorem redemption_after_mark (c : Collaborators) (s : Store) (bodyA bodyB : RegisterBody)
    (code : String) (rest : List Bool) (hs : s.WF)
    (hA : bodyA.code = some code) (hB : bodyB.code = some code)
    (h : (register c s bodyA).response.status = 201)
    (h1 : true ∈ rest) (h2 : false ∈ rest) :
    interleave c bodyA bodyB (List.replicate 5 true ++ rest) ⟨.start, .start, s⟩ =
      ⟨.done (register c s bodyA).response,
        .done ⟨400, .message "Código inválido o ya utilizado"⟩,
        (register c s bodyA).store⟩ ∧
    (register c s bodyA).response.status = 201 ∧
    (register c s bodyA).store.parents.length = s.parents.length + 1 := by
  obtain ⟨parent, hrun, hstep⟩ := interleave_marked c s bodyA bodyB .start h
  have hall := (register_redeems_once_aux c s bodyA code hs hA h)
  have hn : RegistrationCode.findOne (register c s bodyA).store code = none :=
    (findOne_eq_none_iff _ _).2 hall
  obtain ⟨p2, _, hpar, _⟩ := register_child_foreign_key c s bodyA h
  refine ⟨?_, h, by rw [hpar]; simp⟩
  rw [interleave_append, hrun,
    interleave_after_mark c bodyA bodyB code _ parent _ hB hn hstep rest _ _
      (Or.inl rfl) (Or.inl rfl)]
  simp [h1, h2]

/-- Witness of C4 (amended): the first sample request runs up to the marking,
then the second request and the mail of the first interleave. -/
theorem redemption_after_mark_witness :
    sampleStore.WF ∧
    (register sampleCollaborators sampleStore
      ⟨some (ana "secreto1"), some (leo 7 "2001"), some "ABC123"⟩).response.status = 201 ∧
    interleave sampleCollaborators
        ⟨some (ana "secreto1"), some (leo 7 "2001"), some "ABC123"⟩
        ⟨some bea, some (leo 9 "2002"), some "ABC123"⟩
        (List.replicate 5 true ++ [false, true]) ⟨.start, .start, sampleStore⟩ =
      ⟨.done (register sampleCollaborators sampleStore
          ⟨some (ana "secreto1"), some (leo 7 "2001"), some "ABC123"⟩).response,
        .done ⟨400, .message "Código inválido o ya utilizado"⟩,
        (register sampleCollaborators sampleStore
          ⟨some (ana "secreto1"), some (leo 7 "2001"), some "ABC123"⟩).store⟩ :=
  ⟨by decide, by decide,
    (redemption_after_mark sampleCollaborators sampleStore
      ⟨some (ana "secreto1"), some (leo 7 "2001"), some "ABC123"⟩
      ⟨some bea, some (leo 9 "2002"), some "ABC123"⟩ "ABC123" [false, true]
      (by decide) rfl rfl (by decide) (by decide) (by decide)).1⟩

/-! ## The schema constraints are an invariant of the routes -/

theorem nodup_map_append_singleton {α β : Type} (f : α → β) (l : List α) (a : α)
    (h : (l.map f).Nodup) (hn : ∀ x ∈ l, f x ≠ f a) : ((l ++ [a]).map f).Nodup := by
  rw [List.map_append, List.nodup_append]
  refine ⟨h, by simp, ?_⟩
  intro b hb hb2
  simp only [List.map_cons, List.map_nil, List.mem_singleton] at hb2
  rw [List.mem_map] at hb
  obtain ⟨x, hx, hfx⟩ := hb
  exact hn x hx (by rw [hfx, hb2])

theorem parent_create_WF {c : Collaborators} {s s1 : Store} {o : Obj} {p : Parent}
    (h : Parent.create c s o = .ok (p, s1)) (hs : s.WF) : s1.WF := by
  obtain ⟨hs1, hid, _, _, _, _, hdn, hem, _⟩ := parent_create_ok h
  obtain ⟨w1, w2, w3, w4, w5, w6, w7⟩ := hs
  subst hs1
  refine ⟨w1, w2, ?_, ?_, ?_, w6, w7⟩
  · apply nodup_map_append_singleton _ _ _ w3
    intro x hx heq
    apply hid
    rw [← heq]
    exact List.mem_map_of_mem _ hx
  · exact nodup_map_append_singleton _ _ _ w4 hdn
  · exact nodup_map_append_singleton _ _ _ w5 hem

theorem child_create_WF {s s2 : Store} {o : Obj} {k : Child}
    (h : Child.create s o = .ok (k, s2)) (hs : s.WF) : s2.WF := by
  obtain ⟨hs2, hid, _, hdn, _⟩ := child_create_ok h
  obtain ⟨w1, w2, w3, w4, w5, w6, w7⟩ := hs
  subst hs2
  refine ⟨w1, w2, w3, w4, w5, ?_, ?_⟩
  · apply nodup_map_append_singleton _ _ _ w6
    intro x hx heq
    apply hid
    rw [← heq]
    exact List.mem_map_of_mem _ hx
  · exact nodup_map_append_singleton _ _ _ w7 hdn

theorem code_update_WF (s : Store) (rc : RegistrationCode) (hs : s.WF) :
    (RegistrationCode.update s rc).WF := by
  obtain ⟨w1, w2, w3, w4, w5, w6, w7⟩ := hs
  have e1 : (RegistrationCode.update s rc).codes.map (fun r => r.id) =
      s.codes.map (fun r => r.id) := by
    simp only [RegistrationCode.update, List.map_map]
    apply List.map_congr_left
    intro q _
    by_cases hid : q.id = rc.id <;> simp [hid]
  have e2 : (RegistrationCode.update s rc).codes.map (fun r => r.code) =
      s.codes.map (fun r => r.code) := by
    simp only [RegistrationCode.update, List.map_map]
    apply List.map_congr_left
    intro q _
    by_cases hid : q.id = rc.id <;> simp [hid]
  exact ⟨by rw [e1]; exact w1, by rw [e2]; exact w2, w3, w4, w5, w6, w7⟩

theorem parent_update_WF (s : Store) (p : Parent) (hs : s.WF) : (Parent.update s p).WF := by
  obtain ⟨w1, w2, w3, w4, w5, w6, w7⟩ := hs
  have e1 : (Parent.update s p).parents.map (fun r => r.id) = s.parents.map (fun r => r.id) := by
    simp only [Parent.update, List.map_map]
    apply List.map_congr_left
    intro q _
    by_cases hid : q.id = p.id <;> simp [hid]
  have e2 : (Parent.update s p).parents.map (fun r => r.documentNumber) =
      s.parents.map (fun r => r.documentNumber) := by
    simp only [Parent.update, List.map_map]
    apply List.map_congr_left
    intro q _
    by_cases hid : q.id = p.id <;> simp [hid]
  have e3 : (Parent.update s p).parents.map (fun r => r.email) =
      s.parents.map (fun r => r.email) := by
    simp only [Parent.update, List.map_map]
    apply List.map_congr_left
    intro q _
    by_cases hid : q.id = p.id <;> simp [hid]
  exact ⟨w1, w2, by rw [e1]; exact w3, by rw [e2]; exact w4, by rw [e3]; exact w5, w6, w7⟩

/-- Every route keeps the schema constraints: the stores the theorems above
range over are closed under the program. -/
theorem routes_preserve_WF (c : Collaborators) (s : Store) (hs : s.WF) :
    (∀ code, (verifyCode s code).store.WF) ∧
    (∀ body, (register c s body).store.WF) ∧
    (∀ body, (login c s body).store.WF) ∧
    (∀ token, (verifyEmail c s token).store.WF) := by
  refine ⟨?_, ?_, ?_, ?_⟩
  · intro code
    cases code with
    | none => exact hs
    | some code =>
      cases h : RegistrationCode.findOne s code <;> simp [verifyCode, h] <;> exact hs
  · intro body
    by_cases h : (register c s body).response.status = 201
    · obtain ⟨_, rc, _, _, parent, s1, child, s2, _, _, _, _, hp, hk, _, hst, _⟩ :=
        register_created h
      rw [hst]
      exact code_update_WF _ _ (child_create_WF hk (parent_create_WF hp hs))
    · rcases register_failed h with h1 | ⟨_, _, parent, s1, e, _, _, hp, _, hr⟩ |
        ⟨_, rc, _, _, parent, s1, child, s2, _, _, _, _, hp, hk, _, hst, _⟩
      · rw [h1.1]; exact hs
      · rw [hr]; exact parent_create_WF hp hs
      · rw [hst]
        exact code_update_WF _ _ (child_create_WF hk (parent_create_WF hp hs))
  · intro body
    have : (login c s body).store = s := by
      rcases body with ⟨dn, pw⟩
      cases dn with
      | none => rfl
      | some dn =>
        cases hp : Parent.findOneByDocumentNumber s dn with
        | none => simp [login, hp]
        | some p =>
          cases pw with
          | none => simp [login, hp]
          | some pw =>
            cases hc : c.compare pw p.password <;> cases hv : p.isEmailVerified <;>
              simp [login, hp, hc, hv]
    rw [this]; exact hs
  · intro token
    cases hv : c.verify token with
    | none => simp [verifyEmail, hv]; exact hs
    | some d =>
      rcases d with ⟨e⟩
      cases e with
      | none => simp [verifyEmail, hv]; exact hs
      | some e =>
        cases hf : Parent.findOneByEmail s e with
        | none => simp [verifyEmail, hv, hf]; exact hs
        | some p => simp [verifyEmail, hv, hf]; exact parent_update_WF s p hs

theorem mem_notNull {model attr : String} {b : Bool} {e : FieldError}
    (h : e ∈ notNull model attr b) : e.field = attr ∧ b = false := by
  unfold notNull at h
  cases b <;> simp at h
  rw [h]; exact ⟨rfl, rfl⟩

theorem mem_check {attr msg : String} {v : Option String} {ok : String → Bool} {e : FieldError}
    (h : e ∈ check attr v ok msg) : e.field = attr ∧ ∃ x, v = some x ∧ ok x = false := by
  unfold check at h
  cases v with
  | none => simp at h
  | some x =>
    cases hx : ok x
    · simp [hx] at h
      rw [h]; exact ⟨rfl, x, rfl, hx⟩
    · simp [hx] at h

theorem Parent.validate_password {c : Collaborators} {o : Obj} {v : String}
    (hv : o.text "password" = some v) (hl : len 6 100 v = true) :
    ∀ e ∈ Parent.validate c o, e.field ≠ "password" := by
  intro e he
  simp only [Parent.validate, List.mem_append] at he
  rcases he with ((((((((((((h | h) | h) | h) | h) | h) | h) | h) | h) | h) | h) | h) | h)
  · rw [(mem_notNull h).1]; decide
  · rw [(mem_notNull h).1]; decide
  · rw [(mem_notNull h).1]; decide
  · rw [(mem_notNull h).1]; decide
  · rw [(mem_notNull h).1]; decide
  · have := (mem_notNull h).2
    rw [hv] at this
    simp at this
  · rw [(mem_check h).1]; decide
  · rw [(mem_check h).1]; decide
  · rw [(mem_check h).1]; decide
  · rw [(mem_check h).1]; decide
  · rw [(mem_check h).1]; decide
  · rw [(mem_check h).1]; decide
  · obtain ⟨_, x, hx, hok⟩ := mem_check h
    rw [hv] at hx
    simp only [Option.some.injEq] at hx
    subst hx
    rw [hl] at hok
    cases hok

theorem primaryKey_error {o : Obj} {ids : List Nat} {e : DbError}
    (h : primaryKey o ids = .error e) : ∀ x ∈ e.errors, x.field = "PRIMARY" := by
  unfold primaryKey at h
  split at h
  · simp at h
  · split at h
    · simp at h
    · split at h
      · split at h
        · simp only [Except.error.injEq] at h
          subst h
          intro x hx
          simp only [DbError.errors, List.mem_singleton] at hx
          rw [hx]
        · simp at h
      · simp only [Except.error.injEq] at h
        subst h
        intro x hx
        simp [DbError.errors] at hx
  · simp only [Except.error.injEq] at h
    subst h
    intro x hx
    simp [DbError.errors] at hx

theorem parent_create_error {c : Collaborators} {s : Store} {o : Obj} {e : DbError}
    (h : Parent.create c s o = .error e) :
    ∀ x ∈ e.errors, x ∈ Parent.validate c o ∨ x.field = "PRIMARY" ∨
      x.field = "documentNumber" ∨ x.field = "email" := by
  unfold Parent.create at h
  split at h
  · rename_i e1 es hv
    simp only [Except.error.injEq] at h
    subst h
    intro x hx
    left
    rw [hv]; exact hx
  · split at h
    · split at h
      · simp only [Except.error.injEq] at h
        subst h
        intro x hx
        simp [DbError.errors] at hx
      · split at h
        · simp only [Except.error.injEq] at h
          subst h
          intro x hx
          simp [DbError.errors] at hx
        · rename_i hpk
          simp only [Except.error.injEq] at h
          subst h
          intro x hx
          right; left
          exact primaryKey_error hpk x hx
        · split at h
          · simp only [Except.error.injEq] at h
            subst h
            intro x hx
            simp only [DbError.errors, List.mem_singleton] at hx
            right; right; left; rw [hx]
          · split at h
            · simp only [Except.error.injEq] at h
              subst h
              intro x hx
              simp only [DbError.errors, List.mem_singleton] at hx
              right; right; right; rw [hx]
            · simp at h
    · simp only [Except.error.injEq] at h
      subst h
      intro x hx
      simp [DbError.errors] at hx

theorem Child.validateAge_field (o : Obj) : ∀ e ∈ Child.validateAge o, e.field = "age" := by
  intro e he
  unfold Child.validateAge at he
  split at he
  · simp at he
  · simp only [List.mem_append] at he
    rcases he with he | he <;> split at he <;> simp at he <;> rw [he]
  · split at he
    · simp only [List.mem_append] at he
      rcases he with he | he <;> split at he <;> simp at he <;> rw [he]
    · simp at he
      rw [he]
  · simp at he
    rw [he]

theorem Child.validate_field (o : Obj) : ∀ e ∈ Child.validate o, e.field ≠ "password" := by
  intro e he
  simp only [Child.validate, List.mem_append] at he
  rcases he with (((((((h | h) | h) | h) | h) | h) | h) | h)
  · rw [(mem_notNull h).1]; decide
  · rw [(mem_notNull h).1]; decide
  · rw [(mem_notNull h).1]; decide
  · rw [(mem_notNull h).1]; decide
  · rw [(mem_check h).1]; decide
  · rw [(mem_check h).1]; decide
  · rw [Child.validateAge_field o e h]; decide
  · rw [(mem_check h).1]; decide

theorem child_create_error {s : Store} {o : Obj} {e : DbError}
    (h : Child.create s o = .error e) : ∀ x ∈ e.errors, x.field ≠ "password" := by
  unfold Child.create at h
  split at h
  · rename_i e1 es hv
    simp only [Except.error.injEq] at h
    subst h
    intro x hx
    exact Child.validate_field o x (by rw [hv]; exact hx)
  · split at h
    · split at h
      · simp only [Except.error.injEq] at h
        subst h
        intro x hx
        simp [DbError.errors] at hx
      · split at h
        · rename_i hpk
          simp only [Except.error.injEq] at h
          subst h
          intro x hx
          rw [primaryKey_error hpk x hx]; decide
        · split at h
          · simp only [Except.error.injEq] at h
            subst h
            intro x hx
            simp only [DbError.errors, List.mem_singleton] at hx
            rw [hx]; decide
          · split at h
            · simp only [Except.error.injEq] at h
              subst h
              intro x hx
              simp [DbError.errors] at hx
            · simp at h
    · simp only [Except.error.injEq] at h
      subst h
      intro x hx
      simp [DbError.errors] at hx

theorem registerCatch_body (e : DbError) (message : String) (errors : List FieldError)
    (h : (registerCatch e).body = .invalid message errors) : errors = e.errors := by
  cases e with
  | validation es => simp only [registerCatch, Body.invalid.injEq] at h; exact h.2.symm
  | uniqueConstraint es => simp only [registerCatch, Body.invalid.injEq] at h; exact h.2.symm
  | other => simp [registerCatch] at h

/-- Whatever the caller supplies as password, when the hash is between 6 and
100 characters long (a bcrypt hash has 60) no response of `POST /register`
carries a field error for `password`: the length rule never sees the
password the caller supplied. -/
theorem register_password_rule_on_hash (c : Collaborators) (s : Store) (body : RegisterBody)
    (hlen : ∀ pw, len 6 100 (c.hash pw) = true) (message : String) (errors : List FieldError)
    (h : (register c s body).response.body = .invalid message errors) :
    ∀ e ∈ errors, e.field ≠ "password" := by
  by_cases h201 : (register c s body).response.status = 201
  · obtain ⟨_, _, _, _, _, _, _, _, _, _, _, _, _, _, _, _, hre⟩ := register_created h201
    rw [hre] at h
    cases h
  · rcases body with ⟨pdo, cd, code⟩
    cases code with
    | none => simp [register] at h
    | some code =>
    cases hrc : RegistrationCode.findOne s code with
    | none => simp [register, hrc] at h
    | some rc =>
    cases pdo with
    | none => simp [register, hrc] at h
    | some pd =>
    cases hpw : pd.password with
    | none => simp [register, hrc, hpw] at h
    | some pw =>
    cases hp : Parent.create c s (pd.toObj.spread "password" (.str (c.hash pw))) with
    | error e =>
      have hr : register c s ⟨some pd, cd, some code⟩ = ⟨registerCatch e, s, [.hash pw]⟩ := by
        simp [register, hrc, hpw, hp]
      rw [hr] at h
      have he := registerCatch_body e message errors h
      intro x hx
      rw [he] at hx
      rcases parent_create_error hp x hx with h1 | h1 | h1 | h1
      · exact Parent.validate_password (ParentData.text_password pd _) (hlen pw) x h1
      · rw [h1]; decide
      · rw [h1]; decide
      · rw [h1]; decide
    | ok v =>
    obtain ⟨parent, s1⟩ := v
    cases hk : Child.create s1 ((ChildData.toObj cd).spread "parentId" (.int parent.id)) with
    | error e =>
      have hr : register c s ⟨some pd, cd, some code⟩ = ⟨registerCatch e, s1, [.hash pw]⟩ := by
        simp [register, hrc, hpw, hp, hk]
      rw [hr] at h
      have he := registerCatch_body e message errors h
      intro x hx
      rw [he] at hx
      exact child_create_error hk x hx
    | ok w =>
    obtain ⟨child, s2⟩ := w
    cases hm : c.sendMail (verificationMail c parent) <;>
      · simp only [verificationMail] at hm
        simp [register, hrc, hpw, hp, hk, hm] at h

end AprendoJugando
